import Mathlib

/-!
Verification of the metered-job execution saga of the mini-app repository.

The development shallowly embeds, from the source:
  * the two stored procedures `create_job_and_debit` and `refund_job`
    (SETUP SQL), acting on an explicit ledger state of accounts, jobs and
    transactions; the plpgsql `raise exception` aborts the whole
    transaction, so a failing operation is modelled as `Except.error`
    carrying no new state;
  * the model catalog of `packages/shared/src/models.ts`: the zod
    parameter schemas (enumerations with defaults, booleans, bounded
    string lists), the pricing tables and per-model cost functions, and
    `validateInputCount`;
  * the n8n executor adapter `callN8nWebhook` of
    `apps/api/src/lib/n8n.ts`, over an abstract outcome of the outbound
    fetch;
  * the `/generate` handler of the API server (admission, debit, input
    staging, executor call, settlement).

Timestamps (`created_at`, `updated_at`) are omitted; the presence of
`finished_at` is kept as a Boolean.  Monetary `numeric` columns hold
integral credit amounts and are modelled as `Int`.
-/

/-- A JSON value, used for jsonb columns, request params and the executor
response body. -/
inductive Json
  | jNull
  | jBool (b : Bool)
  | jNum (n : Int)
  | jStr (s : String)
  | jArr (xs : List Json)
  | jObj (fields : List (String × Json))

/-- Field access `data?.k` on a JSON value: `none` when the value is not
an object or lacks the key. -/
def jget : Json → String → Option Json
  | .jObj fields, k => (fields.find? (fun kv => decide (kv.fst = k))).map (fun kv => kv.snd)
  | _, _ => none

/-- Field access returning a string, `none` when absent or not a string. -/
def jgetStr (j : Json) (k : String) : Option String :=
  match jget j k with
  | some (.jStr s) => some s
  | _ => none

/-! ## Ledger data model (SETUP SQL tables `users`, `jobs`, `transactions`) -/

/-- A row of `public.users`. -/
structure Account where
  id : Nat
  telegramId : Int
  balance : Int
  promoGen : Int
deriving DecidableEq, Repr

/-- The `status` column of `public.jobs`. -/
inductive JobStatus
  | queued
  | processing
  | succeeded
  | failed
deriving DecidableEq, Repr

/-- The `kind` of an input item (`image` or `video`). -/
inductive InputKind
  | image
  | video
deriving DecidableEq, Repr

/-- One element of a job's `inputs` jsonb list: `{kind, path}`. -/
structure InputItem where
  kind : InputKind
  path : String
deriving DecidableEq, Repr

/-- A row of `public.jobs`.  `finishedAt` records whether `finished_at`
has been set. -/
structure Job where
  id : Nat
  userId : Nat
  model : String
  jobType : String
  prompt : String
  params : Json
  inputs : List InputItem
  status : JobStatus
  cost : Int
  promoGenUsed : Int
  outputUrl : Option String
  errorDetail : Option Json
  finishedAt : Bool

/-- The `type` column of `public.transactions`. -/
inductive TxType
  | debit
  | refund
  | topup
deriving DecidableEq, Repr

/-- A row of `public.transactions` (the `meta` jsonb is omitted). -/
structure Transaction where
  userId : Nat
  jobId : Option Nat
  amount : Int
  txType : TxType
deriving DecidableEq, Repr

/-- The whole ledger: the three tables plus the id supply for job rows. -/
structure LedgerState where
  accounts : List Account
  jobs : List Job
  txs : List Transaction
  nextJobId : Nat

/-- The exceptions raised by the two stored procedures. -/
inductive LedgerError
  | invalidCost
  | invalidCounter
  | userNotFound
  | insufficientBalance
  | jobNotFound
  | jobNotFailed
deriving DecidableEq, Repr

/-- The exception strings of the SQL `raise exception` statements. -/
def ledgerErrMsg : LedgerError → String
  | .invalidCost => "invalid_cost"
  | .invalidCounter => "invalid_counter"
  | .userNotFound => "user_not_found"
  | .insufficientBalance => "insufficient_balance"
  | .jobNotFound => "job_not_found"
  | .jobNotFailed => "job_not_failed"

/-- The result row of `create_job_and_debit`. -/
structure DebitResult where
  jobId : Nat
  balance : Int
  promoGen : Int
  chargedCost : Int
deriving DecidableEq, Repr

/-- The result row of `refund_job`. -/
structure RefundResult where
  balance : Int
  promoGen : Int
deriving DecidableEq, Repr

/-- `v_free_used := greatest(least(v_promo_gen, p_counter), 0)`. -/
def freeUnitsUsed (promoGen counter : Int) : Int :=
  max (min promoGen counter) 0

/-- `v_charge_cost := (p_base_cost * p_counter) - (v_free_used * p_base_cost)`,
clamped below at 0. -/
def chargeCost (promoGen baseCost counter : Int) : Int :=
  let c := baseCost * counter - freeUnitsUsed promoGen counter * baseCost
  if c < 0 then 0 else c

/-- The stored procedure `public.create_job_and_debit`.  A raised
exception rolls the transaction back, hence `Except.error` carries no
state. -/
def create_job_and_debit (st : LedgerState) (pTelegramId : Int)
    (pModel pType pPrompt : String) (pParams : Json) (pInputs : List InputItem)
    (pBaseCost pCounter : Int) : Except LedgerError (DebitResult × LedgerState) :=
  if pBaseCost ≤ 0 then .error .invalidCost
  else if pCounter ≤ 0 then .error .invalidCounter
  else
    match st.accounts.find? (fun b => decide (b.telegramId = pTelegramId)) with
    | none => .error .userNotFound
    | some a =>
      let vFree := freeUnitsUsed a.promoGen pCounter
      let vCharge := chargeCost a.promoGen pBaseCost pCounter
      if a.balance < vCharge then .error .insufficientBalance
      else
        let job : Job :=
          { id := st.nextJobId, userId := a.id, model := pModel, jobType := pType,
            prompt := pPrompt, params := pParams, inputs := pInputs,
            status := .processing, cost := vCharge, promoGenUsed := vFree,
            outputUrl := none, errorDetail := none, finishedAt := false }
        let tx : Transaction :=
          { userId := a.id, jobId := some st.nextJobId, amount := -vCharge, txType := .debit }
        .ok ({ jobId := st.nextJobId, balance := a.balance - vCharge,
               promoGen := a.promoGen - vFree, chargedCost := vCharge },
             { accounts := st.accounts.map (fun b =>
                 if b.id = a.id then
                   { b with balance := b.balance - vCharge, promoGen := b.promoGen - vFree }
                 else b),
               jobs := st.jobs ++ [job],
               txs := st.txs ++ [tx],
               nextJobId := st.nextJobId + 1 })

/-- Whether a `refund` transaction for this job already exists. -/
def hasRefundTx (st : LedgerState) (jid : Nat) : Bool :=
  st.txs.any (fun t => decide (t.jobId = some jid ∧ t.txType = TxType.refund))

/-- The number of `refund` transactions recorded for this job. -/
def refundCount (st : LedgerState) (jid : Nat) : Nat :=
  (st.txs.filter (fun t => decide (t.jobId = some jid ∧ t.txType = TxType.refund))).length

/-- The stored procedure `public.refund_job`.  The source selects or
updates the job's owner without a found-check — the foreign key makes the
row exist; a missing owner is surfaced here as `userNotFound`. -/
def refund_job (st : LedgerState) (pJobId : Nat) :
    Except LedgerError (RefundResult × LedgerState) :=
  match st.jobs.find? (fun j => decide (j.id = pJobId)) with
  | none => .error .jobNotFound
  | some j =>
    if j.status = .failed then
      if hasRefundTx st pJobId then
        match st.accounts.find? (fun b => decide (b.id = j.userId)) with
        | none => .error .userNotFound
        | some a => .ok ({ balance := a.balance, promoGen := a.promoGen }, st)
      else
        match st.accounts.find? (fun b => decide (b.id = j.userId)) with
        | none => .error .userNotFound
        | some a =>
          .ok ({ balance := a.balance + j.cost, promoGen := a.promoGen + j.promoGenUsed },
               { st with
                 accounts := st.accounts.map (fun b =>
                   if b.id = j.userId then
                     { b with balance := b.balance + j.cost,
                              promoGen := b.promoGen + j.promoGenUsed }
                   else b),
                 txs := st.txs ++ [{ userId := j.userId, jobId := some pJobId,
                                     amount := j.cost, txType := .refund }] })
    else .error .jobNotFailed

/-- Run the debit procedure for its state effect; a raised exception
leaves the database unchanged. -/
def debitStep (st : LedgerState) (pTelegramId : Int) (pModel pType pPrompt : String)
    (pParams : Json) (pInputs : List InputItem) (pBaseCost pCounter : Int) : LedgerState :=
  match create_job_and_debit st pTelegramId pModel pType pPrompt pParams pInputs pBaseCost pCounter with
  | .ok (_, st') => st'
  | .error _ => st

/-- Run the refund procedure for its state effect; a raised exception
leaves the database unchanged. -/
def refundStep (st : LedgerState) (pJobId : Nat) : LedgerState :=
  match refund_job st pJobId with
  | .ok (_, st') => st'
  | .error _ => st

/-! ## Model catalog (`packages/shared/src/models.ts`) -/

/-- A per-model input rule `{kind, min, max, maxSizeMB, mimeTypes}`. -/
structure InputRule where
  kind : InputKind
  min : Nat
  max : Nat
  maxSizeMB : Nat
  mimeTypes : List String
deriving DecidableEq, Repr

/-- `type: "image" | "video"` of a model definition. -/
inductive JobType
  | image
  | video
deriving DecidableEq, Repr

/-- The string stored in the job row for a model's type. -/
def jobTypeStr : JobType → String
  | .image => "image"
  | .video => "video"

/-- Output of `nanoBananaProParams.parse`. -/
structure NanoBananaProParams where
  aspect : String
  resolution : String
  outputFormat : String
deriving DecidableEq, Repr

/-- Output of `nanoBananaParams.parse`. -/
structure NanoBananaParams where
  outputFormat : String
  imageSize : String
deriving DecidableEq, Repr

/-- Output of `seedanceParams.parse`; `audioOn` is the `generate_audio`
flag. -/
structure SeedanceParams where
  aspect : String
  resolution : String
  duration : String
  fixedLens : Bool
  audioOn : Bool
deriving DecidableEq, Repr

/-- Output of `wanParams.parse` and `wanV2vParams.parse` (same keys,
different enumerations). -/
structure WanParams where
  duration : String
  resolution : String
  multiShots : Bool
deriving DecidableEq, Repr

/-- Output of `soraParams.parse`. -/
structure SoraParams where
  aspect : String
  nFrames : String
  size : String
  removeWatermark : Bool
  characterIdList : List String
deriving DecidableEq, Repr

/-- The validated parameters of some model, a closed set of variants. -/
inductive ParsedParams
  | pNanoBananaPro (p : NanoBananaProParams)
  | pNanoBanana (p : NanoBananaParams)
  | pSeedance (p : SeedanceParams)
  | pWan (p : WanParams)
  | pSora (p : SoraParams)
deriving DecidableEq, Repr

/-- Generic string-keyed table lookup (a TS `Record<string, _>` access). -/
def lookupStr {α : Type} (t : List (String × α)) (k : String) : Option α :=
  (t.find? (fun kv => decide (kv.fst = k))).map (fun kv => kv.snd)

/-- A zod enum field with a default: missing picks the default, a string
outside the closed option set or a non-string is an error. -/
def parseEnumField (ps : List (String × Json)) (key : String)
    (opts : List String) (dflt : String) : Except String String :=
  match lookupStr ps key with
  | none => .ok dflt
  | some (.jStr v) => if v ∈ opts then .ok v else .error ("invalid value for " ++ key)
  | some _ => .error ("expected string for " ++ key)

/-- A zod boolean field with a default. -/
def parseBoolField (ps : List (String × Json)) (key : String) (dflt : Bool) :
    Except String Bool :=
  match lookupStr ps key with
  | none => .ok dflt
  | some (.jBool b) => .ok b
  | some _ => .error ("expected boolean for " ++ key)

/-- Extract a list of strings from a JSON array, `none` when an element is
not a string. -/
def allStrings : List Json → Option (List String)
  | [] => some []
  | .jStr s :: rest =>
    match allStrings rest with
    | some ss => some (s :: ss)
    | none => none
  | _ :: _ => none

/-- A zod `z.array(z.string()).max(maxItems).default([])` field. -/
def parseStrListField (ps : List (String × Json)) (key : String) (maxItems : Nat) :
    Except String (List String) :=
  match lookupStr ps key with
  | none => .ok []
  | some (.jArr xs) =>
    match allStrings xs with
    | some ss => if ss.length ≤ maxItems then .ok ss else .error ("too many items for " ++ key)
    | none => .error ("expected string array for " ++ key)
  | some _ => .error ("expected array for " ++ key)

/-- `aspectRatiosImage` of the source. -/
def aspectRatiosImage : List String :=
  ["1:1", "2:3", "3:2", "3:4", "4:3", "4:5", "5:4", "9:16", "16:9", "21:9", "auto"]

/-- `aspectRatiosVideo` of the source. -/
def aspectRatiosVideo : List String :=
  ["1:1", "21:9", "4:3", "3:4", "16:9", "9:16"]

/-- `nanoBananaProParams.parse`. -/
def nanoBananaProParse (ps : List (String × Json)) : Except String NanoBananaProParams := do
  let aspect ← parseEnumField ps "aspect_ratio" aspectRatiosImage "auto"
  let resolution ← parseEnumField ps "resolution" ["1K", "2K", "4K"] "1K"
  let outputFormat ← parseEnumField ps "output_format" ["png", "jpg"] "png"
  return ⟨aspect, resolution, outputFormat⟩

/-- `nanoBananaParams.parse`. -/
def nanoBananaParse (ps : List (String × Json)) : Except String NanoBananaParams := do
  let outputFormat ← parseEnumField ps "output_format" ["png", "jpeg"] "png"
  let imageSize ← parseEnumField ps "image_size"
    ["1:1", "9:16", "16:9", "3:4", "4:3", "3:2", "2:3", "5:4", "4:5", "21:9", "auto"] "1:1"
  return ⟨outputFormat, imageSize⟩

/-- `seedanceParams.parse`. -/
def seedanceParse (ps : List (String × Json)) : Except String SeedanceParams := do
  let aspect ← parseEnumField ps "aspect_ratio" aspectRatiosVideo "16:9"
  let resolution ← parseEnumField ps "resolution" ["480p", "720p"] "480p"
  let duration ← parseEnumField ps "duration" ["4", "8", "12"] "4"
  let fixedLens ← parseBoolField ps "fixed_lens" false
  let audioOn ← parseBoolField ps "generate_audio" false
  return ⟨aspect, resolution, duration, fixedLens, audioOn⟩

/-- `wanParams.parse`. -/
def wanParse (ps : List (String × Json)) : Except String WanParams := do
  let duration ← parseEnumField ps "duration" ["5", "10", "15"] "5"
  let resolution ← parseEnumField ps "resolution" ["720p", "1080p"] "720p"
  let multiShots ← parseBoolField ps "multi_shots" false
  return ⟨duration, resolution, multiShots⟩

/-- `wanV2vParams.parse` (durations restricted to 5 and 10). -/
def wanV2vParse (ps : List (String × Json)) : Except String WanParams := do
  let duration ← parseEnumField ps "duration" ["5", "10"] "5"
  let resolution ← parseEnumField ps "resolution" ["720p", "1080p"] "720p"
  let multiShots ← parseBoolField ps "multi_shots" false
  return ⟨duration, resolution, multiShots⟩

/-- `soraParams.parse`. -/
def soraParse (ps : List (String × Json)) : Except String SoraParams := do
  let aspect ← parseEnumField ps "aspect_ratio" ["portrait", "landscape"] "portrait"
  let nFrames ← parseEnumField ps "n_frames" ["10", "15"] "10"
  let size ← parseEnumField ps "size" ["standard", "high"] "standard"
  let removeWatermark ← parseBoolField ps "remove_watermark" false
  let characterIdList ← parseStrListField ps "character_id_list" 5
  return ⟨aspect, nFrames, size, removeWatermark, characterIdList⟩

/-- `seedanceCostTable`: resolution, then duration, then
`(noAudio, audio)`. -/
def seedanceCostTable : List (String × List (String × (Int × Int))) :=
  [("480p", [("4", (10, 15)), ("8", (15, 20)), ("12", (17, 27))]),
   ("720p", [("4", (12, 18)), ("8", (18, 34)), ("12", (30, 50))])]

/-- `wanCostTable`: resolution, then duration. -/
def wanCostTable : List (String × List (String × Int)) :=
  [("720p", [("5", 50), ("10", 90), ("15", 110)]),
   ("1080p", [("5", 65), ("10", 110), ("15", 165)])]

/-- `soraCostTable`: size, then n_frames. -/
def soraCostTable : List (String × List (String × Int)) :=
  [("standard", [("10", 85), ("15", 140)]),
   ("high", [("10", 180), ("15", 350)])]

/-- `nanoBananaPro.computeCost`. -/
def nanoBananaProCost (p : NanoBananaProParams) : Int :=
  if p.resolution = "4K" then 20 else 15

/-- `seedance.computeCost`. -/
def seedanceCost (p : SeedanceParams) : Int :=
  match lookupStr seedanceCostTable p.resolution with
  | none => 0
  | some byRes =>
    match lookupStr byRes p.duration with
    | none => 0
    | some c => if p.audioOn then c.snd else c.fst

/-- `wanT2v.computeCost` (shared by `wanI2v`). -/
def wanCost (p : WanParams) : Int :=
  match lookupStr wanCostTable p.resolution with
  | none => 0
  | some byRes =>
    match lookupStr byRes p.duration with
    | none => 0
    | some c => c

/-- `soraT2v.computeCost` (shared by `soraI2v`). -/
def soraCost (p : SoraParams) : Int :=
  match lookupStr soraCostTable p.size with
  | none => 0
  | some bySize =>
    match lookupStr bySize p.nFrames with
    | none => 0
    | some c => c

/-- Serialize validated params back to jsonb for the job row. -/
def ParsedParams.toJson : ParsedParams → Json
  | .pNanoBananaPro p =>
    .jObj [("aspect_ratio", .jStr p.aspect), ("resolution", .jStr p.resolution),
           ("output_format", .jStr p.outputFormat)]
  | .pNanoBanana p =>
    .jObj [("output_format", .jStr p.outputFormat), ("image_size", .jStr p.imageSize)]
  | .pSeedance p =>
    .jObj [("aspect_ratio", .jStr p.aspect), ("resolution", .jStr p.resolution),
           ("duration", .jStr p.duration), ("fixed_lens", .jBool p.fixedLens),
           ("generate_audio", .jBool p.audioOn)]
  | .pWan p =>
    .jObj [("duration", .jStr p.duration), ("resolution", .jStr p.resolution),
           ("multi_shots", .jBool p.multiShots)]
  | .pSora p =>
    .jObj [("aspect_ratio", .jStr p.aspect), ("n_frames", .jStr p.nFrames),
           ("size", .jStr p.size), ("remove_watermark", .jBool p.removeWatermark),
           ("character_id_list", .jArr (p.characterIdList.map .jStr))]

/-- A model definition: identity, job type, input rule, parameter schema
and cost function.  The TS `computeCost(params: unknown)` re-parses its
argument with the model's own schema and can only ever receive this
model's validated params from the handler; a variant of the wrong model
is priced 0 here and is unreachable in the pipeline. -/
structure ModelDef where
  id : String
  name : String
  jobType : JobType
  promptRequired : Bool
  inputs : Option InputRule
  parseParams : List (String × Json) → Except String ParsedParams
  computeCost : ParsedParams → Int

/-- `imageMimeTypes` of the source. -/
def imageMimeTypes : List String := ["image/jpeg", "image/png", "image/webp"]

/-- `videoMimeTypes` of the source. -/
def videoMimeTypes : List String := ["video/mp4", "video/quicktime", "video/x-matroska"]

/-- The `nano-banana-pro` model. -/
def nanoBananaPro : ModelDef :=
  { id := "nano-banana-pro", name := "Nano banana pro", jobType := .image,
    promptRequired := true,
    inputs := some { kind := .image, min := 0, max := 8, maxSizeMB := 30,
                     mimeTypes := imageMimeTypes },
    parseParams := fun ps => (nanoBananaProParse ps).map .pNanoBananaPro,
    computeCost := fun p =>
      match p with
      | .pNanoBananaPro q => nanoBananaProCost q
      | _ => 0 }

/-- The `google/nano-banana` model. -/
def nanoBanana : ModelDef :=
  { id := "google/nano-banana", name := "Nano banana", jobType := .image,
    promptRequired := true, inputs := none,
    parseParams := fun ps => (nanoBananaParse ps).map .pNanoBanana,
    computeCost := fun _ => 7 }

/-- The `bytedance/seedance-1.5-pro` model. -/
def seedance : ModelDef :=
  { id := "bytedance/seedance-1.5-pro", name := "Seedance 1.5 Pro", jobType := .video,
    promptRequired := true,
    inputs := some { kind := .image, min := 0, max := 2, maxSizeMB := 10,
                     mimeTypes := imageMimeTypes },
    parseParams := fun ps => (seedanceParse ps).map .pSeedance,
    computeCost := fun p =>
      match p with
      | .pSeedance q => seedanceCost q
      | _ => 0 }

/-- The `wan/2-6-text-to-video` model. -/
def wanT2v : ModelDef :=
  { id := "wan/2-6-text-to-video", name := "Wan 2.6 T2V", jobType := .video,
    promptRequired := true, inputs := none,
    parseParams := fun ps => (wanParse ps).map .pWan,
    computeCost := fun p =>
      match p with
      | .pWan q => wanCost q
      | _ => 0 }

/-- The `wan/2-6-image-to-video` model (schema and cost shared with
`wanT2v`). -/
def wanI2v : ModelDef :=
  { id := "wan/2-6-image-to-video", name := "Wan 2.6 I2V", jobType := .video,
    promptRequired := true,
    inputs := some { kind := .image, min := 1, max := 1, maxSizeMB := 10,
                     mimeTypes := imageMimeTypes },
    parseParams := fun ps => (wanParse ps).map .pWan,
    computeCost := fun p =>
      match p with
      | .pWan q => wanCost q
      | _ => 0 }

/-- The `wan/2-6-video-to-video` model. -/
def wanV2v : ModelDef :=
  { id := "wan/2-6-video-to-video", name := "Wan 2.6 V2V", jobType := .video,
    promptRequired := true,
    inputs := some { kind := .video, min := 1, max := 3, maxSizeMB := 10,
                     mimeTypes := videoMimeTypes },
    parseParams := fun ps => (wanV2vParse ps).map .pWan,
    computeCost := fun p =>
      match p with
      | .pWan q => wanCost q
      | _ => 0 }

/-- The `sora-2-pro-text-to-video` model. -/
def soraT2v : ModelDef :=
  { id := "sora-2-pro-text-to-video", name := "Sora 2 Pro T2V", jobType := .video,
    promptRequired := true, inputs := none,
    parseParams := fun ps => (soraParse ps).map .pSora,
    computeCost := fun p =>
      match p with
      | .pSora q => soraCost q
      | _ => 0 }

/-- The `sora-2-pro-image-to-video` model (schema and cost shared with
`soraT2v`). -/
def soraI2v : ModelDef :=
  { id := "sora-2-pro-image-to-video", name := "Sora 2 Pro I2V", jobType := .video,
    promptRequired := true,
    inputs := some { kind := .image, min := 1, max := 1, maxSizeMB := 10,
                     mimeTypes := imageMimeTypes },
    parseParams := fun ps => (soraParse ps).map .pSora,
    computeCost := fun p =>
      match p with
      | .pSora q => soraCost q
      | _ => 0 }

/-- The catalog, in the source's registration order. -/
def models : List ModelDef :=
  [nanoBananaPro, nanoBanana, seedance, wanT2v, wanI2v, wanV2v, soraT2v, soraI2v]

/-- `getModel`. -/
def getModel (id : String) : Option ModelDef :=
  models.find? (fun m => decide (m.id = id))

/-- The `{ok} | {ok:false, message}` result of input validation. -/
inductive InputCheck
  | ok
  | err (msg : String)
deriving DecidableEq, Repr

/-- The noun used in the count error message. -/
def kindWord : InputKind → String
  | .video => "видео"
  | .image => "изображений"

/-- The noun used in the wrong-kind error message. -/
def kindWordOne : InputKind → String
  | .video => "видео"
  | .image => "изображение"

/-- `validateInputCount` of the shared package. -/
def validateInputCount (m : ModelDef) (inputs : List InputItem) : InputCheck :=
  match m.inputs with
  | none =>
    if inputs.length > 0 then .err "Входные файлы для этой модели не поддерживаются."
    else .ok
  | some r =>
    if inputs.length < r.min ∨ inputs.length > r.max then
      .err ("Нужно " ++ toString r.min ++ "-" ++ toString r.max ++ " " ++ kindWord r.kind ++ ".")
    else
      match inputs.find? (fun i => decide (i.kind ≠ r.kind)) with
      | some w => .err ("Неверный тип входных данных: " ++ kindWordOne w.kind ++ ".")
      | none => .ok

/-! ## Generation executor adapter (`apps/api/src/lib/n8n.ts`) -/

/-- The body of an HTTP response that reached the client: either
`response.json()` rejects, or it yields a JSON value. -/
inductive BodyOutcome
  | jsonFail (msg : String)
  | jsonVal (data : Json)

/-- The outcome of the outbound `fetch`: the promise rejects (a network
error, or the abort fired by the timeout), or a response arrives with an
ok-flag (2xx), a status and a body. -/
inductive FetchOutcome
  | fetchFail (msg : String)
  | httpResp (ok : Bool) (status : Nat) (body : BodyOutcome)

/-- The `{ok:false, error:{code, message}}` value the adapter fabricates
for its own failures. -/
def errorJson (code msg : String) : Json :=
  .jObj [("ok", .jBool false),
         ("error", .jObj [("code", .jStr code), ("message", .jStr msg)])]

/-- `callN8nWebhook`, over the outcome of the outbound call.  A rejected
fetch or an unparsable body lands in the catch block
(`n8n_fetch_error`); a non-2xx response yields `n8n_http_error`; a JSON
body whose `ok` field is not a boolean yields `n8n_invalid_response`;
otherwise the server's body is returned verbatim. -/
def callN8nWebhook (outcome : FetchOutcome) : Json :=
  match outcome with
  | .fetchFail msg => errorJson "n8n_fetch_error" msg
  | .httpResp ok status body =>
    if ok = false then
      errorJson "n8n_http_error" ("n8n responded with " ++ toString status)
    else
      match body with
      | .jsonFail msg => errorJson "n8n_fetch_error" msg
      | .jsonVal data =>
        match jget data "ok" with
        | some (.jBool _) => data
        | _ => errorJson "n8n_invalid_response" "n8n response format invalid"

/-- The `error.code` of an adapter reply, when present. -/
def n8nErrCode (j : Json) : Option String :=
  match jget j "error" with
  | some e => jgetStr e "code"
  | none => none

/-! ## The `/generate` handler (`apps/api/src/server.ts`) -/

/-- The request body after the zod `bodySchema` parse: the schema bounds
`counter` to the integers 1..6 when present. -/
structure GenBody where
  model : String
  prompt : String
  params : List (String × Json)
  inputs : List InputItem
  style : Option String
  counter : Option Int
  promptAi : Bool

/-- The `user: {balance, promo_gen}` part of a reply. -/
structure UserView where
  balance : Int
  promoGen : Option Int
deriving DecidableEq, Repr

/-- The handler's reply, projected to the fields the saga decides:
a 400 request/funding error, the 500 staging-failure reply (job and error
but no user), the 500 executor-failure reply with post-refund balances,
or the success reply with the balances captured at debit time. -/
inductive GenReply
  | badRequest (code msg : String)
  | stageFailed (jobId : Nat) (code msg : String)
  | genFailed (jobId : Nat) (err : Option Json) (user : UserView)
  | genOk (jobId : Nat) (outputUrl : Option String) (cost : Int) (user : UserView)

/-- `counter = model.type === "image" ? parsed.counter ?? 1 : 1`. -/
def effectiveCounter (m : ModelDef) (c : Option Int) : Int :=
  match m.jobType with
  | .image => c.getD 1
  | .video => 1

/-- The string form of an input kind, as sent in the executor payload. -/
def inputKindStr : InputKind → String
  | .image => "image"
  | .video => "video"

/-- Obtain signed read URLs for the declared inputs; the first failing
`createSignedUrl` aborts staging. -/
def stageInputs (sign : String → Option String) : List InputItem → Option (List (String × String))
  | [] => some []
  | i :: rest =>
    match sign i.path with
    | none => none
    | some url =>
      match stageInputs sign rest with
      | none => none
      | some urls => some ((inputKindStr i.kind, url) :: urls)

/-- The `update jobs set status = failed, error, finished_at where id`
statement of the settlement branches. -/
def markJobFailed (st : LedgerState) (jid : Nat) (e : Option Json) : LedgerState :=
  { st with jobs := st.jobs.map (fun j =>
      if j.id = jid then { j with status := .failed, errorDetail := e, finishedAt := true }
      else j) }

/-- The `update jobs set status = succeeded, output_url, finished_at
where id` statement of the success branch. -/
def markJobSucceeded (st : LedgerState) (jid : Nat) (out : Option String) : LedgerState :=
  { st with jobs := st.jobs.map (fun j =>
      if j.id = jid then { j with status := .succeeded, outputUrl := out, finishedAt := true }
      else j) }

/-- The `/generate` handler after the zod body parse, over the external
outcomes: `sign` is the blob store's signed-URL call, `fo` the outcome of
the executor webhook call. -/
def generate (st : LedgerState) (tid : Int) (body : GenBody)
    (sign : String → Option String) (fo : FetchOutcome) : GenReply × LedgerState :=
  match getModel body.model with
  | none => (.badRequest "unknown_model" "Model not found", st)
  | some m =>
    match m.parseParams body.params with
    | .error e => (.badRequest "invalid_params" e, st)
    | .ok pp =>
      match validateInputCount m body.inputs with
      | .err msg => (.badRequest "invalid_inputs" msg, st)
      | .ok =>
        let baseCost := m.computeCost pp
        let counter := effectiveCounter m body.counter
        let cost := baseCost * counter
        if baseCost ≤ 0 ∨ cost ≤ 0 then
          (.badRequest "invalid_cost" "Unable to calculate cost", st)
        else
          match create_job_and_debit st tid body.model (jobTypeStr m.jobType) body.prompt
              pp.toJson body.inputs baseCost counter with
          | .error e => (.badRequest "debit_failed" (ledgerErrMsg e), st)
          | .ok (row, st1) =>
            match stageInputs sign body.inputs with
            | none =>
              let st2 := markJobFailed st1 row.jobId
                (some (Json.jObj [("code", .jStr "signed_url_failed"),
                                  ("message", .jStr "Failed to sign input")]))
              let st3 := refundStep st2 row.jobId
              (.stageFailed row.jobId "signed_url_failed" "Failed to sign input", st3)
            | some _ =>
              let reply := callN8nWebhook fo
              match jget reply "ok" with
              | some (.jBool true) =>
                let st2 := markJobSucceeded st1 row.jobId (jgetStr reply "output_url")
                (.genOk row.jobId (jgetStr reply "output_url") row.chargedCost
                   { balance := row.balance, promoGen := some row.promoGen }, st2)
              | _ =>
                let st2 := markJobFailed st1 row.jobId (jget reply "error")
                match refund_job st2 row.jobId with
                | .ok (r, st3) =>
                  (.genFailed row.jobId (jget reply "error")
                     { balance := r.balance, promoGen := some r.promoGen }, st3)
                | .error _ =>
                  (.genFailed row.jobId (jget reply "error")
                     { balance := row.balance, promoGen := some row.promoGen }, st2)

/-! ## Operation sequences and invariants -/

/-- One invocation of a Ledger Store operation, with its arguments. -/
inductive LedgerOp
  | debit (tid : Int) (model jtype prompt : String) (params : Json)
      (inputs : List InputItem) (baseCost counter : Int)
  | refund (jid : Nat)

/-- Apply one operation to the ledger; a raised exception leaves the
state unchanged. -/
def applyOp (st : LedgerState) : LedgerOp → LedgerState
  | .debit tid m ty pr pa inp bc cnt => debitStep st tid m ty pr pa inp bc cnt
  | .refund jid => refundStep st jid

/-- Run a sequence of operations. -/
def runOps (st : LedgerState) (ops : List LedgerOp) : LedgerState :=
  ops.foldl applyOp st

/-- The primary-key constraint on `users.id`. -/
def DistinctIds (st : LedgerState) : Prop :=
  st.accounts.Pairwise (fun x y => x.id ≠ y.id)

/-- The ledger well-formedness the schema maintains: non-negative account
balances and promo credits, non-negative job costs and promo usage, and
distinct account ids. -/
def LedgerInv (st : LedgerState) : Prop :=
  (∀ a ∈ st.accounts, 0 ≤ a.balance ∧ 0 ≤ a.promoGen) ∧
  (∀ j ∈ st.jobs, 0 ≤ j.cost ∧ 0 ≤ j.promoGenUsed) ∧
  DistinctIds st

/-! ## List infrastructure lemmas -/

/-- `find?` commutes with a map that does not disturb the predicate. -/
theorem find?_map_pres {α : Type} (g : α → α) (p : α → Bool)
    (hg : ∀ x, p (g x) = p x) (l : List α) :
    (l.map g).find? p = (l.find? p).map g := by
  induction l with
  | nil => rfl
  | cons x xs ih =>
    simp only [List.map_cons, List.find?]
    rw [hg x]
    cases hpx : p x <;> simp [ih]

/-- A member is what `find?` by its id returns, when ids are distinct. -/
theorem find?_by_id_of_mem (l : List Account) (a : Account)
    (hd : l.Pairwise (fun x y => x.id ≠ y.id)) (ha : a ∈ l) :
    l.find? (fun b => decide (b.id = a.id)) = some a := by
  induction l with
  | nil => cases ha
  | cons x xs ih =>
    rcases List.pairwise_cons.mp hd with ⟨hx, hxs⟩
    rcases List.mem_cons.mp ha with rfl | hmem
    · simp [List.find?]
    · have hne : x.id ≠ a.id := hx a hmem
      simp only [List.find?]
      rw [show decide (x.id = a.id) = false by simp [hne]]
      exact ih hxs hmem

/-- Two members with the same id coincide, when ids are distinct. -/
theorem eq_of_mem_same_id (l : List Account) (a b : Account)
    (hd : l.Pairwise (fun x y => x.id ≠ y.id)) (ha : a ∈ l) (hb : b ∈ l)
    (hid : b.id = a.id) : b = a := by
  induction l with
  | nil => cases ha
  | cons x xs ih =>
    rcases List.pairwise_cons.mp hd with ⟨hx, hxs⟩
    rcases List.mem_cons.mp ha with rfl | hmema
    · rcases List.mem_cons.mp hb with rfl | hmemb
      · rfl
      · exact absurd hid (hx b hmemb).symm
    · rcases List.mem_cons.mp hb with rfl | hmemb
      · exact absurd (hid.symm.trans rfl) (fun h => hx a hmema h.symm)
      · exact ih hxs hmema hmemb

/-- Searching an appended list when the first part has no match. -/
theorem find?_append_of_none {α : Type} (p : α → Bool) (l1 l2 : List α)
    (h : l1.find? p = none) : (l1 ++ l2).find? p = l2.find? p := by
  induction l1 with
  | nil => rfl
  | cons x xs ih =>
    simp only [List.find?, List.cons_append] at h ⊢
    cases hpx : p x
    · rw [hpx] at h
      exact ih h
    · rw [hpx] at h
      cases h

/-- `freeUnitsUsed` is non-negative. -/
theorem freeUnitsUsed_nonneg (p c : Int) : 0 ≤ freeUnitsUsed p c :=
  le_max_right _ _

/-- `freeUnitsUsed` never exceeds a non-negative promo balance. -/
theorem freeUnitsUsed_le (p c : Int) (hp : 0 ≤ p) : freeUnitsUsed p c ≤ p := by
  unfold freeUnitsUsed
  rcases le_total p c with h | h
  · rw [min_eq_left h, max_eq_left hp]
  · rw [min_eq_right h]
    exact max_le h hp

/-- `chargeCost` is non-negative. -/
theorem chargeCost_nonneg (p bc c : Int) : 0 ≤ chargeCost p bc c := by
  show 0 ≤ if bc * c - freeUnitsUsed p c * bc < 0 then 0
    else bc * c - freeUnitsUsed p c * bc
  split <;> omega

/-- The source's clamped charge agrees with the specification's
`max(unitCost * unitCount - freeUnitsUsed * unitCost, 0)`. -/
theorem chargeCost_eq_max (p bc c : Int) :
    chargeCost p bc c = max (bc * c - freeUnitsUsed p c * bc) 0 := by
  show (if bc * c - freeUnitsUsed p c * bc < 0 then 0
    else bc * c - freeUnitsUsed p c * bc) = _
  rw [max_def]
  split <;> split <;> omega

/-- The source's `greatest(least(_, _), 0)` agrees with the
specification's `clamp(promoCredits, 0, unitCount)`. -/
theorem freeUnitsUsed_eq_clamp (p c : Int) :
    freeUnitsUsed p c = max 0 (min p c) := by
  unfold freeUnitsUsed
  exact max_comm _ _

/-! ## Characterizations of the two stored procedures -/

/-- A successful `create_job_and_debit`, spelt out: the found account is
charged `chargeCost` and loses `freeUnitsUsed` promo credits, the job row
and the debit transaction are appended. -/
theorem debit_ok (st : LedgerState) (tid : Int) (m ty pr : String) (pa : Json)
    (inp : List InputItem) (uc cnt : Int) (a : Account)
    (hfind : st.accounts.find? (fun b => decide (b.telegramId = tid)) = some a)
    (huc : 0 < uc) (hcnt : 0 < cnt)
    (hbal : chargeCost a.promoGen uc cnt ≤ a.balance) :
    create_job_and_debit st tid m ty pr pa inp uc cnt =
      .ok ({ jobId := st.nextJobId,
             balance := a.balance - chargeCost a.promoGen uc cnt,
             promoGen := a.promoGen - freeUnitsUsed a.promoGen cnt,
             chargedCost := chargeCost a.promoGen uc cnt },
           { accounts := st.accounts.map (fun b =>
               if b.id = a.id then
                 { b with balance := b.balance - chargeCost a.promoGen uc cnt,
                          promoGen := b.promoGen - freeUnitsUsed a.promoGen cnt }
               else b),
             jobs := st.jobs ++
               [{ id := st.nextJobId, userId := a.id, model := m,
                  jobType := ty, prompt := pr, params := pa, inputs := inp,
                  status := .processing, cost := chargeCost a.promoGen uc cnt,
                  promoGenUsed := freeUnitsUsed a.promoGen cnt,
                  outputUrl := none, errorDetail := none, finishedAt := false }],
             txs := st.txs ++
               [{ userId := a.id, jobId := some st.nextJobId,
                  amount := -chargeCost a.promoGen uc cnt, txType := .debit }],
             nextJobId := st.nextJobId + 1 }) := by
  unfold create_job_and_debit
  rw [if_neg (by omega : ¬ uc ≤ 0), if_neg (by omega : ¬ cnt ≤ 0), hfind]
  simp only [if_neg (not_lt.mpr hbal)]

/-- A failing `create_job_and_debit` raises the corresponding exception
and, via `debitStep`, leaves the ledger untouched. -/
theorem debit_err_cases (st : LedgerState) (tid : Int) (m ty pr : String) (pa : Json)
    (inp : List InputItem) (uc cnt : Int) :
    (uc ≤ 0 → create_job_and_debit st tid m ty pr pa inp uc cnt = .error .invalidCost) ∧
    (0 < uc → cnt ≤ 0 →
      create_job_and_debit st tid m ty pr pa inp uc cnt = .error .invalidCounter) ∧
    (0 < uc → 0 < cnt →
      st.accounts.find? (fun b => decide (b.telegramId = tid)) = none →
      create_job_and_debit st tid m ty pr pa inp uc cnt = .error .userNotFound) ∧
    (∀ a, 0 < uc → 0 < cnt →
      st.accounts.find? (fun b => decide (b.telegramId = tid)) = some a →
      a.balance < chargeCost a.promoGen uc cnt →
      create_job_and_debit st tid m ty pr pa inp uc cnt = .error .insufficientBalance) := by
  refine ⟨fun h => ?_, fun h1 h2 => ?_, fun h1 h2 h3 => ?_, fun a h1 h2 h3 h4 => ?_⟩
  · unfold create_job_and_debit
    rw [if_pos h]
  · unfold create_job_and_debit
    rw [if_neg (by omega : ¬ uc ≤ 0), if_pos h2]
  · unfold create_job_and_debit
    rw [if_neg (by omega : ¬ uc ≤ 0), if_neg (by omega : ¬ cnt ≤ 0), h3]
  · unfold create_job_and_debit
    rw [if_neg (by omega : ¬ uc ≤ 0), if_neg (by omega : ¬ cnt ≤ 0), h3]
    simp only [if_pos h4]

/-- A first refund of a failed job, spelt out: the owner gets the job's
cost and promo usage back, and one `refund` transaction is appended. -/
theorem refund_ok_fresh (st : LedgerState) (jid : Nat) (j : Job) (a : Account)
    (hj : st.jobs.find? (fun x => decide (x.id = jid)) = some j)
    (hs : j.status = .failed)
    (hr : hasRefundTx st jid = false)
    (ha : st.accounts.find? (fun b => decide (b.id = j.userId)) = some a) :
    refund_job st jid =
      .ok ({ balance := a.balance + j.cost, promoGen := a.promoGen + j.promoGenUsed },
           { st with
             accounts := st.accounts.map (fun b =>
               if b.id = j.userId then
                 { b with balance := b.balance + j.cost,
                          promoGen := b.promoGen + j.promoGenUsed }
               else b),
             txs := st.txs ++ [{ userId := j.userId, jobId := some jid,
                                 amount := j.cost, txType := .refund }] }) := by
  unfold refund_job
  rw [hj]
  simp only [if_pos hs, hr, Bool.false_eq_true, if_neg (by simp : ¬ False), ha]

/-- A repeated refund of an already-refunded job returns the owner's
current balances and changes nothing. -/
theorem refund_ok_already (st : LedgerState) (jid : Nat) (j : Job) (a : Account)
    (hj : st.jobs.find? (fun x => decide (x.id = jid)) = some j)
    (hs : j.status = .failed)
    (hr : hasRefundTx st jid = true)
    (ha : st.accounts.find? (fun b => decide (b.id = j.userId)) = some a) :
    refund_job st jid = .ok ({ balance := a.balance, promoGen := a.promoGen }, st) := by
  unfold refund_job
  rw [hj]
  simp only [if_pos hs, hr, if_pos trivial, ha]

/-- A refund of a job that is not `failed` raises `job_not_failed`. -/
theorem refund_err_not_failed (st : LedgerState) (jid : Nat) (j : Job)
    (hj : st.jobs.find? (fun x => decide (x.id = jid)) = some j)
    (hs : j.status ≠ .failed) :
    refund_job st jid = .error .jobNotFailed := by
  unfold refund_job
  rw [hj]
  simp only [if_neg hs]

/-- A failing debit leaves the ledger unchanged. -/
theorem debitStep_of_error (st : LedgerState) (tid : Int) (m ty pr : String) (pa : Json)
    (inp : List InputItem) (uc cnt : Int) (e : LedgerError)
    (h : create_job_and_debit st tid m ty pr pa inp uc cnt = .error e) :
    debitStep st tid m ty pr pa inp uc cnt = st := by
  unfold debitStep
  rw [h]

/-- A failing refund leaves the ledger unchanged. -/
theorem refundStep_of_error (st : LedgerState) (jid : Nat) (e : LedgerError)
    (h : refund_job st jid = .error e) : refundStep st jid = st := by
  unfold refundStep
  rw [h]

/-- No refund transaction is recorded when the refund count is zero. -/
theorem hasRefundTx_false_of_count (st : LedgerState) (jid : Nat)
    (h : refundCount st jid = 0) : hasRefundTx st jid = false := by
  unfold refundCount at h
  unfold hasRefundTx
  rw [List.any_eq_false]
  intro x hx
  have hnil := List.length_eq_zero.mp h
  have := List.filter_eq_nil_iff.mp hnil x hx
  simpa using this

/-! ## Claim C2 -/

/-- C2: for a `DebitAndCreateJob` call with positive unit cost and count
on an existing, sufficiently funded account, the free units equal
`clamp(promoCredits, 0, unitCount)`, the charge equals
`max(unitCost * unitCount - freeUnitsUsed * unitCost, 0)`, the account's
cash balance decreases by exactly the charge and its promo credits by
exactly the free units, and the created job row carries `cost = charge`
and `promoCreditsConsumed = freeUnitsUsed`. -/
theorem C2_debit_clamp_charge_and_balances (st : LedgerState) (tid : Int)
    (m ty pr : String) (pa : Json) (inp : List InputItem) (uc cnt : Int) (a : Account)
    (hfind : st.accounts.find? (fun b => decide (b.telegramId = tid)) = some a)
    (huc : 0 < uc) (hcnt : 0 < cnt)
    (hbal : chargeCost a.promoGen uc cnt ≤ a.balance) :
    freeUnitsUsed a.promoGen cnt = max 0 (min a.promoGen cnt) ∧
    chargeCost a.promoGen uc cnt = max (uc * cnt - freeUnitsUsed a.promoGen cnt * uc) 0 ∧
    ∃ st', create_job_and_debit st tid m ty pr pa inp uc cnt =
        .ok ({ jobId := st.nextJobId,
               balance := a.balance - chargeCost a.promoGen uc cnt,
               promoGen := a.promoGen - freeUnitsUsed a.promoGen cnt,
               chargedCost := chargeCost a.promoGen uc cnt }, st') ∧
      st'.accounts.find? (fun b => decide (b.telegramId = tid)) =
        some { a with balance := a.balance - chargeCost a.promoGen uc cnt,
                      promoGen := a.promoGen - freeUnitsUsed a.promoGen cnt } ∧
      ∃ job, st'.jobs = st.jobs ++ [job] ∧
        job.cost = chargeCost a.promoGen uc cnt ∧
        job.promoGenUsed = freeUnitsUsed a.promoGen cnt ∧
        job.status = .processing := by
  refine ⟨freeUnitsUsed_eq_clamp _ _, chargeCost_eq_max _ _ _, ?_⟩
  have hok := debit_ok st tid m ty pr pa inp uc cnt a hfind huc hcnt hbal
  refine ⟨_, hok, ?_, ?_⟩
  · have hpres : ∀ b : Account,
        (fun b : Account => decide (b.telegramId = tid))
          (if b.id = a.id then
            { b with balance := b.balance - chargeCost a.promoGen uc cnt,
                     promoGen := b.promoGen - freeUnitsUsed a.promoGen cnt }
           else b) =
        (fun b : Account => decide (b.telegramId = tid)) b := by
      intro b
      by_cases hb : b.id = a.id <;> simp [hb]
    rw [find?_map_pres _ _ hpres, hfind]
    simp
  · exact ⟨_, rfl, rfl, rfl, rfl⟩

/-- C2 witness: the spec scenario — balance 100 with 2 promo credits,
unit cost 30, unit count 2 — is charged 0 and ends with balance 100 and
0 promo credits. -/
theorem C2_witness :
    freeUnitsUsed 2 2 = 2 ∧ chargeCost 2 30 2 = 0 ∧
    ∃ st', create_job_and_debit
        { accounts := [{ id := 1, telegramId := 7, balance := 100, promoGen := 2 }],
          jobs := [], txs := [], nextJobId := 0 } 7 "m" "image" "p" .jNull [] 30 2 =
        .ok ({ jobId := 0, balance := 100, promoGen := 0, chargedCost := 0 }, st') ∧
      st'.accounts.find? (fun b => decide (b.telegramId = 7)) =
        some { id := 1, telegramId := 7, balance := 100, promoGen := 0 } ∧
      ∃ job, st'.jobs = [] ++ [job] ∧ job.cost = 0 ∧ job.promoGenUsed = 2 ∧
        job.status = .processing := by
  obtain ⟨-, -, st', h1, h2, job, h3, h4, h5, h6⟩ :=
    C2_debit_clamp_charge_and_balances
      { accounts := [{ id := 1, telegramId := 7, balance := 100, promoGen := 2 }],
        jobs := [], txs := [], nextJobId := 0 } 7 "m" "image" "p" .jNull [] 30 2
      { id := 1, telegramId := 7, balance := 100, promoGen := 2 }
      rfl (by decide) (by decide) (by decide)
  have e1 : chargeCost 2 30 2 = 0 := by decide
  have e2 : freeUnitsUsed
      ({ id := 1, telegramId := 7, balance := 100, promoGen := 2 } : Account).promoGen 2 = 2 := by
    decide
  rw [e2] at h1 h2 h5
  norm_num at h1 h2
  exact ⟨by decide, e1, st', h1, h2, job, h3, h4, h5, h6⟩

/-! ## Claim C5 -/

/-- C5: every failing Ledger Store operation raises the named exception
and leaves the entire ledger unchanged: a non-positive unit cost, a
non-positive unit count, an unknown account, or an insufficient cash
balance abort the debit, and a refund of a job whose status is not
`failed` aborts with `job_not_failed`. -/
theorem C5_failing_ops_leave_ledger_unchanged (st : LedgerState) (tid : Int)
    (m ty pr : String) (pa : Json) (inp : List InputItem) (uc cnt : Int) (jid : Nat) :
    (uc ≤ 0 →
      create_job_and_debit st tid m ty pr pa inp uc cnt = .error .invalidCost ∧
      debitStep st tid m ty pr pa inp uc cnt = st) ∧
    (0 < uc → cnt ≤ 0 →
      create_job_and_debit st tid m ty pr pa inp uc cnt = .error .invalidCounter ∧
      debitStep st tid m ty pr pa inp uc cnt = st) ∧
    (0 < uc → 0 < cnt →
      st.accounts.find? (fun b => decide (b.telegramId = tid)) = none →
      create_job_and_debit st tid m ty pr pa inp uc cnt = .error .userNotFound ∧
      debitStep st tid m ty pr pa inp uc cnt = st) ∧
    (∀ a, 0 < uc → 0 < cnt →
      st.accounts.find? (fun b => decide (b.telegramId = tid)) = some a →
      a.balance < chargeCost a.promoGen uc cnt →
      create_job_and_debit st tid m ty pr pa inp uc cnt = .error .insufficientBalance ∧
      debitStep st tid m ty pr pa inp uc cnt = st) ∧
    (∀ j, st.jobs.find? (fun x => decide (x.id = jid)) = some j → j.status ≠ .failed →
      refund_job st jid = .error .jobNotFailed ∧ refundStep st jid = st) := by
  obtain ⟨d1, d2, d3, d4⟩ := debit_err_cases st tid m ty pr pa inp uc cnt
  refine ⟨fun h => ?_, fun h1 h2 => ?_, fun h1 h2 h3 => ?_, fun a h1 h2 h3 h4 => ?_,
    fun j hj hs => ?_⟩
  · exact ⟨d1 h, debitStep_of_error _ _ _ _ _ _ _ _ _ _ (d1 h)⟩
  · exact ⟨d2 h1 h2, debitStep_of_error _ _ _ _ _ _ _ _ _ _ (d2 h1 h2)⟩
  · exact ⟨d3 h1 h2 h3, debitStep_of_error _ _ _ _ _ _ _ _ _ _ (d3 h1 h2 h3)⟩
  · exact ⟨d4 a h1 h2 h3 h4, debitStep_of_error _ _ _ _ _ _ _ _ _ _ (d4 a h1 h2 h3 h4)⟩
  · have hr := refund_err_not_failed st jid j hj hs
    exact ⟨hr, refundStep_of_error _ _ _ hr⟩

/-- C5 witness: on a one-account ledger with a `processing` job, a debit
with unit cost 0, one with unit count 0, one for an unknown account, one
exceeding the balance, and a refund of the `processing` job all fail with
the named errors and change nothing. -/
theorem C5_witness :
    (create_job_and_debit
        { accounts := [{ id := 1, telegramId := 7, balance := 10, promoGen := 0 }],
          jobs := [{ id := 0, userId := 1, model := "m", jobType := "image", prompt := "p",
                     params := .jNull, inputs := [], status := .processing, cost := 5,
                     promoGenUsed := 0, outputUrl := none, errorDetail := none,
                     finishedAt := false }],
          txs := [], nextJobId := 1 } 7 "m" "image" "p" .jNull [] 0 1 =
      .error .invalidCost) ∧
    (create_job_and_debit
        { accounts := [{ id := 1, telegramId := 7, balance := 10, promoGen := 0 }],
          jobs := [{ id := 0, userId := 1, model := "m", jobType := "image", prompt := "p",
                     params := .jNull, inputs := [], status := .processing, cost := 5,
                     promoGenUsed := 0, outputUrl := none, errorDetail := none,
                     finishedAt := false }],
          txs := [], nextJobId := 1 } 7 "m" "image" "p" .jNull [] 30 0 =
      .error .invalidCounter) ∧
    (create_job_and_debit
        { accounts := [{ id := 1, telegramId := 7, balance := 10, promoGen := 0 }],
          jobs := [{ id := 0, userId := 1, model := "m", jobType := "image", prompt := "p",
                     params := .jNull, inputs := [], status := .processing, cost := 5,
                     promoGenUsed := 0, outputUrl := none, errorDetail := none,
                     finishedAt := false }],
          txs := [], nextJobId := 1 } 8 "m" "image" "p" .jNull [] 30 1 =
      .error .userNotFound) ∧
    (create_job_and_debit
        { accounts := [{ id := 1, telegramId := 7, balance := 10, promoGen := 0 }],
          jobs := [{ id := 0, userId := 1, model := "m", jobType := "image", prompt := "p",
                     params := .jNull, inputs := [], status := .processing, cost := 5,
                     promoGenUsed := 0, outputUrl := none, errorDetail := none,
                     finishedAt := false }],
          txs := [], nextJobId := 1 } 7 "m" "image" "p" .jNull [] 30 1 =
      .error .insufficientBalance) ∧
    (refund_job
        { accounts := [{ id := 1, telegramId := 7, balance := 10, promoGen := 0 }],
          jobs := [{ id := 0, userId := 1, model := "m", jobType := "image", prompt := "p",
                     params := .jNull, inputs := [], status := .processing, cost := 5,
                     promoGenUsed := 0, outputUrl := none, errorDetail := none,
                     finishedAt := false }],
          txs := [], nextJobId := 1 } 0 =
      .error .jobNotFailed) := by
  obtain ⟨c1, -, -, -, -⟩ := C5_failing_ops_leave_ledger_unchanged
    { accounts := [{ id := 1, telegramId := 7, balance := 10, promoGen := 0 }],
      jobs := [{ id := 0, userId := 1, model := "m", jobType := "image", prompt := "p",
                 params := .jNull, inputs := [], status := .processing, cost := 5,
                 promoGenUsed := 0, outputUrl := none, errorDetail := none,
                 finishedAt := false }],
      txs := [], nextJobId := 1 } 7 "m" "image" "p" .jNull [] 0 1 0
  obtain ⟨-, c2, -, -, -⟩ := C5_failing_ops_leave_ledger_unchanged
    { accounts := [{ id := 1, telegramId := 7, balance := 10, promoGen := 0 }],
      jobs := [{ id := 0, userId := 1, model := "m", jobType := "image", prompt := "p",
                 params := .jNull, inputs := [], status := .processing, cost := 5,
                 promoGenUsed := 0, outputUrl := none, errorDetail := none,
                 finishedAt := false }],
      txs := [], nextJobId := 1 } 7 "m" "image" "p" .jNull [] 30 0 0
  obtain ⟨-, -, c3, -, -⟩ := C5_failing_ops_leave_ledger_unchanged
    { accounts := [{ id := 1, telegramId := 7, balance := 10, promoGen := 0 }],
      jobs := [{ id := 0, userId := 1, model := "m", jobType := "image", prompt := "p",
                 params := .jNull, inputs := [], status := .processing, cost := 5,
                 promoGenUsed := 0, outputUrl := none, errorDetail := none,
                 finishedAt := false }],
      txs := [], nextJobId := 1 } 8 "m" "image" "p" .jNull [] 30 1 0
  obtain ⟨-, -, -, c4, -⟩ := C5_failing_ops_leave_ledger_unchanged
    { accounts := [{ id := 1, telegramId := 7, balance := 10, promoGen := 0 }],
      jobs := [{ id := 0, userId := 1, model := "m", jobType := "image", prompt := "p",
                 params := .jNull, inputs := [], status := .processing, cost := 5,
                 promoGenUsed := 0, outputUrl := none, errorDetail := none,
                 finishedAt := false }],
      txs := [], nextJobId := 1 } 7 "m" "image" "p" .jNull [] 30 1 0
  obtain ⟨-, -, -, -, c5⟩ := C5_failing_ops_leave_ledger_unchanged
    { accounts := [{ id := 1, telegramId := 7, balance := 10, promoGen := 0 }],
      jobs := [{ id := 0, userId := 1, model := "m", jobType := "image", prompt := "p",
                 params := .jNull, inputs := [], status := .processing, cost := 5,
                 promoGenUsed := 0, outputUrl := none, errorDetail := none,
                 finishedAt := false }],
      txs := [], nextJobId := 1 } 7 "m" "image" "p" .jNull [] 30 1 0
  refine ⟨(c1 (by decide)).1, (c2 (by decide) (by decide)).1,
    (c3 (by decide) (by decide) rfl).1,
    (c4 { id := 1, telegramId := 7, balance := 10, promoGen := 0 }
      (by decide) (by decide) rfl (by decide)).1,
    (c5 { id := 0, userId := 1, model := "m", jobType := "image", prompt := "p",
          params := .jNull, inputs := [], status := .processing, cost := 5,
          promoGenUsed := 0, outputUrl := none, errorDetail := none,
          finishedAt := false } rfl (by decide)).1⟩

/-! ## Claim C3 -/

/-- C3: `RefundJob` is idempotent.  On a `failed` job for which a
`refund` transaction already exists, a call mutates nothing and returns
the owner's current balances; and after a first successful refund from a
refund-free state, a second call returns the same balances and the same
unchanged state, leaving exactly one `refund` transaction for the job. -/
theorem C3_refund_idempotent (st : LedgerState) (jid : Nat) :
    (∀ j a, st.jobs.find? (fun x => decide (x.id = jid)) = some j →
      j.status = .failed → hasRefundTx st jid = true →
      st.accounts.find? (fun b => decide (b.id = j.userId)) = some a →
      refund_job st jid = .ok ({ balance := a.balance, promoGen := a.promoGen }, st)) ∧
    (∀ r1 st1, refundCount st jid = 0 → refund_job st jid = .ok (r1, st1) →
      refund_job st1 jid = .ok (r1, st1) ∧ refundCount st1 jid = 1) := by
  constructor
  · intro j a hj hs hr ha
    exact refund_ok_already st jid j a hj hs hr ha
  · intro r1 st1 h0 h
    have hr0 : hasRefundTx st jid = false := hasRefundTx_false_of_count st jid h0
    unfold refund_job at h
    cases hj : st.jobs.find? (fun x => decide (x.id = jid)) with
    | none => rw [hj] at h; cases h
    | some j =>
      rw [hj] at h
      dsimp only at h
      by_cases hs : j.status = .failed
      · rw [if_pos hs, hr0] at h
        simp only [Bool.false_eq_true, if_false] at h
        cases ha : st.accounts.find? (fun b => decide (b.id = j.userId)) with
        | none => rw [ha] at h; cases h
        | some a =>
          rw [ha] at h
          simp only [Except.ok.injEq, Prod.mk.injEq] at h
          obtain ⟨hr1, hst1⟩ := h
          subst hr1
          subst hst1
          have haid : a.id = j.userId := by
            have := List.find?_some ha
            simpa using this
          have hpres : ∀ b : Account,
              (fun b : Account => decide (b.id = j.userId))
                (if b.id = j.userId then
                  { b with balance := b.balance + j.cost,
                           promoGen := b.promoGen + j.promoGenUsed }
                 else b) =
              (fun b : Account => decide (b.id = j.userId)) b := by
            intro b
            by_cases hb : b.id = j.userId <;> simp [hb]
          have hfind1 : (st.accounts.map (fun b =>
              if b.id = j.userId then
                { b with balance := b.balance + j.cost,
                         promoGen := b.promoGen + j.promoGenUsed }
              else b)).find? (fun b => decide (b.id = j.userId)) =
              some { a with balance := a.balance + j.cost,
                            promoGen := a.promoGen + j.promoGenUsed } := by
            rw [find?_map_pres _ _ hpres, ha]
            simp [haid]
          have htx1 : hasRefundTx
              { st with
                accounts := st.accounts.map (fun b =>
                  if b.id = j.userId then
                    { b with balance := b.balance + j.cost,
                             promoGen := b.promoGen + j.promoGenUsed }
                  else b),
                txs := st.txs ++ [{ userId := j.userId, jobId := some jid,
                                    amount := j.cost, txType := .refund }] } jid = true := by
            unfold hasRefundTx
            simp [List.any_append]
          constructor
          · exact refund_ok_already
              { st with
                accounts := st.accounts.map (fun b =>
                  if b.id = j.userId then
                    { b with balance := b.balance + j.cost,
                             promoGen := b.promoGen + j.promoGenUsed }
                  else b),
                txs := st.txs ++ [{ userId := j.userId, jobId := some jid,
                                    amount := j.cost, txType := .refund }] }
              jid j
              { a with balance := a.balance + j.cost,
                       promoGen := a.promoGen + j.promoGenUsed }
              hj hs htx1 hfind1
          · unfold refundCount at h0 ⊢
            simp only [List.filter_append, List.length_append, h0]
            simp [List.filter]
      · rw [if_neg hs] at h
        cases h

/-- C3 witness: refunding a failed job of cost 30 on a balance of 70
yields balance 100 both on the first and on the second call, with
exactly one refund transaction. -/
theorem C3_witness :
    ∃ r1 st1, refund_job
        { accounts := [{ id := 1, telegramId := 7, balance := 70, promoGen := 0 }],
          jobs := [{ id := 0, userId := 1, model := "m", jobType := "image", prompt := "p",
                     params := .jNull, inputs := [], status := .failed, cost := 30,
                     promoGenUsed := 0, outputUrl := none, errorDetail := none,
                     finishedAt := true }],
          txs := [{ userId := 1, jobId := some 0, amount := -30, txType := .debit }],
          nextJobId := 1 } 0 = .ok (r1, st1) ∧
      r1.balance = 100 ∧ r1.promoGen = 0 ∧
      refund_job st1 0 = .ok (r1, st1) ∧ refundCount st1 0 = 1 := by
  obtain ⟨-, hB⟩ := C3_refund_idempotent
    { accounts := [{ id := 1, telegramId := 7, balance := 70, promoGen := 0 }],
      jobs := [{ id := 0, userId := 1, model := "m", jobType := "image", prompt := "p",
                 params := .jNull, inputs := [], status := .failed, cost := 30,
                 promoGenUsed := 0, outputUrl := none, errorDetail := none,
                 finishedAt := true }],
      txs := [{ userId := 1, jobId := some 0, amount := -30, txType := .debit }],
      nextJobId := 1 } 0
  obtain ⟨h2, h3⟩ := hB { balance := 100, promoGen := 0 }
    { accounts := [{ id := 1, telegramId := 7, balance := 100, promoGen := 0 }],
      jobs := [{ id := 0, userId := 1, model := "m", jobType := "image", prompt := "p",
                 params := .jNull, inputs := [], status := .failed, cost := 30,
                 promoGenUsed := 0, outputUrl := none, errorDetail := none,
                 finishedAt := true }],
      txs := [{ userId := 1, jobId := some 0, amount := -30, txType := .debit },
              { userId := 1, jobId := some 0, amount := 30, txType := .refund }],
      nextJobId := 1 } rfl rfl
  exact ⟨_, _, rfl, rfl, rfl, h2, h3⟩

/-! ## Claim C4 -/

/-- A debit step preserves the ledger invariant. -/
theorem debitStep_preserves_inv (st : LedgerState) (tid : Int) (m ty pr : String)
    (pa : Json) (inp : List InputItem) (uc cnt : Int) (h : LedgerInv st) :
    LedgerInv (debitStep st tid m ty pr pa inp uc cnt) := by
  obtain ⟨hacc, hjobs, hdist⟩ := h
  unfold debitStep
  cases hc : create_job_and_debit st tid m ty pr pa inp uc cnt with
  | error e => exact ⟨hacc, hjobs, hdist⟩
  | ok p =>
    obtain ⟨row, st'⟩ := p
    dsimp only
    unfold create_job_and_debit at hc
    by_cases h1 : uc ≤ 0
    · rw [if_pos h1] at hc; cases hc
    · rw [if_neg h1] at hc
      by_cases h2 : cnt ≤ 0
      · rw [if_pos h2] at hc; cases hc
      · rw [if_neg h2] at hc
        cases hfind : st.accounts.find? (fun b => decide (b.telegramId = tid)) with
        | none => rw [hfind] at hc; cases hc
        | some a =>
          rw [hfind] at hc
          dsimp only at hc
          by_cases h3 : a.balance < chargeCost a.promoGen uc cnt
          · rw [if_pos h3] at hc; cases hc
          · rw [if_neg h3] at hc
            simp only [Except.ok.injEq, Prod.mk.injEq] at hc
            obtain ⟨-, hst'⟩ := hc
            subst hst'
            have hamem : a ∈ st.accounts := List.mem_of_find?_eq_some hfind
            have hupd : ∀ b : Account,
                ((if b.id = a.id then
                  { b with balance := b.balance - chargeCost a.promoGen uc cnt,
                           promoGen := b.promoGen - freeUnitsUsed a.promoGen cnt }
                 else b) : Account).id = b.id := by
              intro b
              by_cases hb : b.id = a.id <;> simp [hb]
            refine ⟨?_, ?_, ?_⟩
            · intro b' hb'
              obtain ⟨b, hbmem, hbeq⟩ := List.mem_map.mp hb'
              subst hbeq
              by_cases hb : b.id = a.id
              · have hba : b = a := eq_of_mem_same_id st.accounts a b hdist hamem hbmem hb
                subst hba
                rw [if_pos hb]
                constructor
                · have := chargeCost_nonneg b.promoGen uc cnt
                  dsimp only
                  omega
                · have hple := freeUnitsUsed_le b.promoGen cnt (hacc b hbmem).2
                  dsimp only
                  omega
              · rw [if_neg hb]
                exact hacc b hbmem
            · intro x hx
              rcases List.mem_append.mp hx with hx | hx
              · exact hjobs x hx
              · rcases List.mem_singleton.mp hx with rfl
                exact ⟨chargeCost_nonneg _ _ _, freeUnitsUsed_nonneg _ _⟩
            · unfold DistinctIds at hdist ⊢
              rw [List.pairwise_map]
              exact hdist.imp (fun hab => by simpa [hupd] using hab)

/-- A refund step preserves the ledger invariant. -/
theorem refundStep_preserves_inv (st : LedgerState) (jid : Nat) (h : LedgerInv st) :
    LedgerInv (refundStep st jid) := by
  obtain ⟨hacc, hjobs, hdist⟩ := h
  unfold refundStep
  cases hc : refund_job st jid with
  | error e => exact ⟨hacc, hjobs, hdist⟩
  | ok p =>
    obtain ⟨r, st'⟩ := p
    dsimp only
    unfold refund_job at hc
    cases hj : st.jobs.find? (fun x => decide (x.id = jid)) with
    | none => rw [hj] at hc; cases hc
    | some j =>
      rw [hj] at hc
      dsimp only at hc
      by_cases hs : j.status = .failed
      · rw [if_pos hs] at hc
        have hjmem : j ∈ st.jobs := List.mem_of_find?_eq_some hj
        have hjc := hjobs j hjmem
        by_cases hr : hasRefundTx st jid = true
        · rw [if_pos hr] at hc
          cases ha : st.accounts.find? (fun b => decide (b.id = j.userId)) with
          | none => rw [ha] at hc; cases hc
          | some a =>
            rw [ha] at hc
            simp only [Except.ok.injEq, Prod.mk.injEq] at hc
            obtain ⟨-, hst'⟩ := hc
            subst hst'
            exact ⟨hacc, hjobs, hdist⟩
        · rw [if_neg hr] at hc
          cases ha : st.accounts.find? (fun b => decide (b.id = j.userId)) with
          | none => rw [ha] at hc; cases hc
          | some a =>
            rw [ha] at hc
            simp only [Except.ok.injEq, Prod.mk.injEq] at hc
            obtain ⟨-, hst'⟩ := hc
            subst hst'
            have hupd : ∀ b : Account,
                ((if b.id = j.userId then
                  { b with balance := b.balance + j.cost,
                           promoGen := b.promoGen + j.promoGenUsed }
                 else b) : Account).id = b.id := by
              intro b
              by_cases hb : b.id = j.userId <;> simp [hb]
            refine ⟨?_, hjobs, ?_⟩
            · intro b' hb'
              obtain ⟨b, hbmem, hbeq⟩ := List.mem_map.mp hb'
              subst hbeq
              by_cases hb : b.id = j.userId
              · rw [if_pos hb]
                have := hacc b hbmem
                constructor
                · dsimp only; omega
                · dsimp only; omega
              · rw [if_neg hb]
                exact hacc b hbmem
            · unfold DistinctIds at hdist ⊢
              rw [List.pairwise_map]
              exact hdist.imp (fun hab => by simpa [hupd] using hab)
      · rw [if_neg hs] at hc
        cases hc

/-- Each operation preserves the ledger invariant. -/
theorem applyOp_preserves_inv (st : LedgerState) (op : LedgerOp) (h : LedgerInv st) :
    LedgerInv (applyOp st op) := by
  cases op with
  | debit tid m ty pr pa inp bc cnt => exact debitStep_preserves_inv st tid m ty pr pa inp bc cnt h
  | refund jid => exact refundStep_preserves_inv st jid h

/-- Sequences of operations preserve the ledger invariant. -/
theorem runOps_preserves_inv (st : LedgerState) (ops : List LedgerOp) (h : LedgerInv st) :
    LedgerInv (runOps st ops) := by
  induction ops generalizing st with
  | nil => exact h
  | cons op rest ih => exact ih (applyOp st op) (applyOp_preserves_inv st op h)

/-- C4: from any well-formed ledger, after any sequence of
`DebitAndCreateJob` and `RefundJob` operations every account's cash
balance and promo credits are non-negative. -/
theorem C4_balances_never_negative (st0 : LedgerState) (ops : List LedgerOp)
    (h0 : LedgerInv st0) :
    ∀ a ∈ (runOps st0 ops).accounts, 0 ≤ a.balance ∧ 0 ≤ a.promoGen :=
  (runOps_preserves_inv st0 ops h0).1

/-- C4 witness: a debit that exhausts the balance followed by an
(unsuccessful) refund attempt of a non-failed job ends with the account
at balance 0, promo 0 — non-negative, as the invariant theorem states. -/
theorem C4_witness :
    ({ id := 1, telegramId := 7, balance := 0, promoGen := 0 } : Account) ∈
      (runOps
        { accounts := [{ id := 1, telegramId := 7, balance := 30, promoGen := 1 }], jobs := [], txs := [], nextJobId := 0 }
        [.debit 7 "m" "image" "p" .jNull [] 30 2, .refund 0]).accounts ∧
    0 ≤ ({ id := 1, telegramId := 7, balance := 0, promoGen := 0 } : Account).balance ∧
    0 ≤ ({ id := 1, telegramId := 7, balance := 0, promoGen := 0 } : Account).promoGen := by
  have h0 : LedgerInv
      { accounts := [{ id := 1, telegramId := 7, balance := 30, promoGen := 1 }], jobs := [], txs := [], nextJobId := 0 } := by
    unfold LedgerInv DistinctIds
    refine ⟨by decide, by decide, by decide⟩
  have h := C4_balances_never_negative
    { accounts := [{ id := 1, telegramId := 7, balance := 30, promoGen := 1 }], jobs := [], txs := [], nextJobId := 0 }
    [.debit 7 "m" "image" "p" .jNull [] 30 2, .refund 0] h0
    { id := 1, telegramId := 7, balance := 0, promoGen := 0 } (by decide)
  exact ⟨by decide, h.1, h.2⟩

/-! ## Claim C8 -/

/-- C8: input validation is a function of observed count and kind against
the model's `{kind, min, max}` rule: without a rule exactly the empty
list is accepted; with a rule exactly the lists whose length lies in
`[min, max]` and whose every element has the declared kind are accepted;
every rejection carries an error message. -/
theorem C8_validateInputCount_characterization (m : ModelDef) (inputs : List InputItem) :
    (m.inputs = none → (validateInputCount m inputs = .ok ↔ inputs = [])) ∧
    (∀ r, m.inputs = some r →
      (validateInputCount m inputs = .ok ↔
        (r.min ≤ inputs.length ∧ inputs.length ≤ r.max ∧ ∀ i ∈ inputs, i.kind = r.kind))) ∧
    (validateInputCount m inputs ≠ .ok → ∃ msg, validateInputCount m inputs = .err msg) := by
  refine ⟨fun hn => ?_, fun r hr => ?_, fun hne => ?_⟩
  · unfold validateInputCount
    rw [hn]
    dsimp only
    constructor
    · intro h
      by_cases hl : inputs.length > 0
      · rw [if_pos hl] at h; cases h
      · exact List.length_eq_zero.mp (by omega)
    · intro h
      subst h
      simp
  · unfold validateInputCount
    rw [hr]
    dsimp only
    constructor
    · intro h
      by_cases hl : inputs.length < r.min ∨ inputs.length > r.max
      · rw [if_pos hl] at h; cases h
      · rw [if_neg hl] at h
        push_neg at hl
        refine ⟨by omega, by omega, ?_⟩
        cases hf : inputs.find? (fun i => decide (i.kind ≠ r.kind)) with
        | none =>
          intro i hi
          have := List.find?_eq_none.mp hf i hi
          simpa using this
        | some w => rw [hf] at h; cases h
    · rintro ⟨h1, h2, h3⟩
      rw [if_neg (by omega)]
      have hf : inputs.find? (fun i => decide (i.kind ≠ r.kind)) = none := by
        rw [List.find?_eq_none]
        intro i hi
        simp [h3 i hi]
      rw [hf]
  · cases hv : validateInputCount m inputs with
    | ok => exact absurd hv hne
    | err msg => exact ⟨msg, rfl⟩

/-- C8 witness: one image input is accepted by `seedance` (rule 0..2
images) and rejected by `google/nano-banana` (no input rule). -/
theorem C8_witness :
    validateInputCount seedance [{ kind := .image, path := "a" }] = .ok ∧
    (validateInputCount nanoBanana [{ kind := .image, path := "a" }] = .ok ↔
      ([{ kind := .image, path := "a" }] : List InputItem) = []) := by
  obtain ⟨-, h2, -⟩ :=
    C8_validateInputCount_characterization seedance [{ kind := .image, path := "a" }]
  obtain ⟨h1, -, -⟩ :=
    C8_validateInputCount_characterization nanoBanana [{ kind := .image, path := "a" }]
  refine ⟨?_, h1 rfl⟩
  exact (h2 { kind := .image, min := 0, max := 2, maxSizeMB := 10,
              mimeTypes := imageMimeTypes } rfl).mpr ⟨by decide, by decide, by decide⟩

/-! ## Claim C9 -/

/-- C9: the billed unit count is forced to 1 for every video model,
whatever the client sent; a client batch count is honoured only for
image models. -/
theorem C9_video_counter_forced_to_one (m : ModelDef) (c : Option Int) :
    (m.jobType = .video → effectiveCounter m c = 1) ∧
    (m.jobType = .image → ∀ k, c = some k → effectiveCounter m c = k) ∧
    (m.jobType = .image → c = none → effectiveCounter m c = 1) := by
  refine ⟨fun h => ?_, fun h k hk => ?_, fun h hk => ?_⟩
  · unfold effectiveCounter
    rw [h]
  · unfold effectiveCounter
    rw [h, hk]
    rfl
  · unfold effectiveCounter
    rw [h, hk]
    rfl

/-- C9 witness: a client counter of 5 is ignored by the video model
`seedance` and honoured by the image model `google/nano-banana`. -/
theorem C9_witness :
    effectiveCounter seedance (some 5) = 1 ∧
    effectiveCounter nanoBanana (some 5) = 5 := by
  refine ⟨(C9_video_counter_forced_to_one seedance (some 5)).1 rfl, ?_⟩
  exact (C9_video_counter_forced_to_one nanoBanana (some 5)).2.1 rfl 5 rfl

/-! ## Claim C7 -/

/-- C7 counterexample: a cancelled or failed outbound call surfaces with
code `n8n_fetch_error`, not with the codes `transport_error` or
`timeout` the claim names. -/
theorem C7_counterexample :
    n8nErrCode (callN8nWebhook (.fetchFail "This operation was aborted")) =
      some "n8n_fetch_error" ∧
    n8nErrCode (callN8nWebhook (.fetchFail "This operation was aborted")) ≠
      some "transport_error" ∧
    n8nErrCode (callN8nWebhook (.fetchFail "This operation was aborted")) ≠
      some "timeout" := by
  exact ⟨rfl, by decide, by decide⟩

/-- C7 (amended): the adapter maps a rejected fetch (network error or
the timeout's abort) and an unparsable body to code `n8n_fetch_error`, a
non-success HTTP response to `n8n_http_error`, and a JSON body whose
`ok` field is not a boolean to `n8n_invalid_response`; a body with a
boolean `ok` — in particular a well-formed failure with its embedded
`{code, message}` — is passed through verbatim. -/
theorem C7_amended_adapter_error_mapping (msg : String) (status : Nat) (data : Json) :
    callN8nWebhook (.fetchFail msg) = errorJson "n8n_fetch_error" msg ∧
    (∀ b, callN8nWebhook (.httpResp false status b) =
      errorJson "n8n_http_error" ("n8n responded with " ++ toString status)) ∧
    callN8nWebhook (.httpResp true status (.jsonFail msg)) = errorJson "n8n_fetch_error" msg ∧
    ((∀ bb : Bool, jget data "ok" ≠ some (.jBool bb)) →
      callN8nWebhook (.httpResp true status (.jsonVal data)) =
        errorJson "n8n_invalid_response" "n8n response format invalid") ∧
    (∀ bb : Bool, jget data "ok" = some (.jBool bb) →
      callN8nWebhook (.httpResp true status (.jsonVal data)) = data) := by
  refine ⟨rfl, fun b => rfl, rfl, fun hno => ?_, fun bb hbb => ?_⟩
  · unfold callN8nWebhook
    dsimp only
    rw [if_neg (by decide : ¬ (true = false))]
    cases hok : jget data "ok" with
    | none => rfl
    | some v =>
      cases v with
      | jBool b => exact absurd hok (hno b)
      | jNull => rfl
      | jNum n => rfl
      | jStr s => rfl
      | jArr xs => rfl
      | jObj fs => rfl
  · unfold callN8nWebhook
    dsimp only
    rw [if_neg (by decide : ¬ (true = false)), hbb]

/-- C7 amended witness: a body `{ok:false, error:{code:"x", message:"y"}}`
is passed through verbatim, and a body `{}` with no `ok` field maps to
`n8n_invalid_response`. -/
theorem C7_amended_witness :
    callN8nWebhook (.httpResp true 200 (.jsonVal
      (.jObj [("ok", .jBool false),
              ("error", .jObj [("code", .jStr "x"), ("message", .jStr "y")])]))) =
      .jObj [("ok", .jBool false),
             ("error", .jObj [("code", .jStr "x"), ("message", .jStr "y")])] ∧
    callN8nWebhook (.httpResp true 200 (.jsonVal (.jObj []))) =
      errorJson "n8n_invalid_response" "n8n response format invalid" := by
  obtain ⟨-, -, -, h4, h5⟩ := C7_amended_adapter_error_mapping "m" 200
    (Json.jObj [("ok", .jBool false),
                ("error", .jObj [("code", .jStr "x"), ("message", .jStr "y")])])
  obtain ⟨-, -, -, h4', -⟩ := C7_amended_adapter_error_mapping "m" 200 (Json.jObj [])
  exact ⟨h5 false rfl, h4' (by intro bb h; cases h)⟩

/-! ## Claim C6 -/

/-- C6: a generation request that fails admission — unknown model id,
parameters rejected by the model's schema, inputs rejected by the
input-count rule, or a non-positive computed cost (in particular a
combination priced at 0) — is answered with a request error and the
ledger is returned unchanged: no job row, no transaction, no balance
change, and the debit operation is never invoked. -/
theorem C6_admission_rejects_before_debit (st : LedgerState) (tid : Int) (body : GenBody)
    (sign : String → Option String) (fo : FetchOutcome) :
    (getModel body.model = none →
      generate st tid body sign fo = (.badRequest "unknown_model" "Model not found", st)) ∧
    (∀ m e, getModel body.model = some m → m.parseParams body.params = .error e →
      generate st tid body sign fo = (.badRequest "invalid_params" e, st)) ∧
    (∀ m pp msg, getModel body.model = some m → m.parseParams body.params = .ok pp →
      validateInputCount m body.inputs = .err msg →
      generate st tid body sign fo = (.badRequest "invalid_inputs" msg, st)) ∧
    (∀ m pp, getModel body.model = some m → m.parseParams body.params = .ok pp →
      validateInputCount m body.inputs = .ok →
      (m.computeCost pp ≤ 0 ∨ m.computeCost pp * effectiveCounter m body.counter ≤ 0) →
      generate st tid body sign fo =
        (.badRequest "invalid_cost" "Unable to calculate cost", st)) := by
  refine ⟨fun h => ?_, fun m e hm hp => ?_, fun m pp msg hm hp hv => ?_,
    fun m pp hm hp hv hc => ?_⟩
  · unfold generate
    rw [h]
  · unfold generate
    rw [hm]
    dsimp only
    rw [hp]
  · unfold generate
    rw [hm]
    dsimp only
    rw [hp]
    dsimp only
    rw [hv]
  · unfold generate
    rw [hm]
    dsimp only
    rw [hp]
    dsimp only
    rw [hv]
    dsimp only
    rw [if_pos hc]

/-- C6 witness: an unknown model, out-of-range seedance params, an input
given to a model without an input rule, and a zero total cost are each
rejected with the matching request error, state unchanged. -/
theorem C6_witness :
    (generate { accounts := [], jobs := [], txs := [], nextJobId := 0 } 7
        { model := "nope", prompt := "p", params := [], inputs := [], style := none,
          counter := none, promptAi := false } (fun _ => none) (.fetchFail "x") =
      (.badRequest "unknown_model" "Model not found",
       { accounts := [], jobs := [], txs := [], nextJobId := 0 })) ∧
    (generate { accounts := [], jobs := [], txs := [], nextJobId := 0 } 7
        { model := "bytedance/seedance-1.5-pro", prompt := "p",
          params := [("resolution", .jStr "1440p")], inputs := [], style := none,
          counter := none, promptAi := false } (fun _ => none) (.fetchFail "x") =
      (.badRequest "invalid_params" "invalid value for resolution",
       { accounts := [], jobs := [], txs := [], nextJobId := 0 })) ∧
    (generate { accounts := [], jobs := [], txs := [], nextJobId := 0 } 7
        { model := "google/nano-banana", prompt := "p", params := [],
          inputs := [{ kind := .image, path := "a" }], style := none,
          counter := none, promptAi := false } (fun _ => none) (.fetchFail "x") =
      (.badRequest "invalid_inputs" "Входные файлы для этой модели не поддерживаются.",
       { accounts := [], jobs := [], txs := [], nextJobId := 0 })) ∧
    (generate { accounts := [], jobs := [], txs := [], nextJobId := 0 } 7
        { model := "google/nano-banana", prompt := "p", params := [], inputs := [],
          style := none, counter := some 0, promptAi := false } (fun _ => none)
        (.fetchFail "x") =
      (.badRequest "invalid_cost" "Unable to calculate cost",
       { accounts := [], jobs := [], txs := [], nextJobId := 0 })) := by
  obtain ⟨c1, -, -, -⟩ := C6_admission_rejects_before_debit
    { accounts := [], jobs := [], txs := [], nextJobId := 0 } 7
    { model := "nope", prompt := "p", params := [], inputs := [], style := none,
      counter := none, promptAi := false } (fun _ => none) (.fetchFail "x")
  obtain ⟨-, c2, -, -⟩ := C6_admission_rejects_before_debit
    { accounts := [], jobs := [], txs := [], nextJobId := 0 } 7
    { model := "bytedance/seedance-1.5-pro", prompt := "p",
      params := [("resolution", .jStr "1440p")], inputs := [], style := none,
      counter := none, promptAi := false } (fun _ => none) (.fetchFail "x")
  obtain ⟨-, -, c3, -⟩ := C6_admission_rejects_before_debit
    { accounts := [], jobs := [], txs := [], nextJobId := 0 } 7
    { model := "google/nano-banana", prompt := "p", params := [],
      inputs := [{ kind := .image, path := "a" }], style := none,
      counter := none, promptAi := false } (fun _ => none) (.fetchFail "x")
  obtain ⟨-, -, -, c4⟩ := C6_admission_rejects_before_debit
    { accounts := [], jobs := [], txs := [], nextJobId := 0 } 7
    { model := "google/nano-banana", prompt := "p", params := [], inputs := [],
      style := none, counter := some 0, promptAi := false } (fun _ => none) (.fetchFail "x")
  refine ⟨c1 rfl, c2 seedance "invalid value for resolution" rfl rfl,
    c3 nanoBanana (.pNanoBanana { outputFormat := "png", imageSize := "1:1" })
      "Входные файлы для этой модели не поддерживаются." rfl rfl rfl,
    c4 nanoBanana (.pNanoBanana { outputFormat := "png", imageSize := "1:1" })
      rfl rfl rfl (Or.inr (by decide))⟩

/-! ## Claim C10 -/

/-- Inversion of a successful `Except` bind. -/
theorem except_bind_ok {α β : Type} {e : Except String α} {f : α → Except String β} {b : β}
    (h : e >>= f = .ok b) : ∃ a, e = .ok a ∧ f a = .ok b := by
  cases e with
  | error s => simp [Bind.bind, Except.bind] at h
  | ok a => exact ⟨a, rfl, by simpa [Bind.bind, Except.bind] using h⟩

/-- Inversion of a successful `Except.map`. -/
theorem except_map_ok {α β : Type} {f : α → β} {e : Except String α} {b : β}
    (h : Except.map f e = .ok b) : ∃ a, e = .ok a ∧ b = f a := by
  cases e with
  | error s => simp [Except.map] at h
  | ok a => exact ⟨a, rfl, by simpa [Except.map] using h.symm⟩

/-- When the default is among the options, a successful enum-field parse
yields a member of the option set. -/
theorem parseEnumField_ok_mem (ps : List (String × Json)) (key : String)
    (opts : List String) (dflt : String) (v : String)
    (hd : dflt ∈ opts) (h : parseEnumField ps key opts dflt = .ok v) : v ∈ opts := by
  unfold parseEnumField at h
  cases hk : lookupStr ps key with
  | none =>
    rw [hk] at h
    injection h with h'
    subst h'
    exact hd
  | some j =>
    rw [hk] at h
    cases j with
    | jStr s =>
      dsimp only at h
      by_cases hm : s ∈ opts
      · rw [if_pos hm] at h
        injection h with h'
        subst h'
        exact hm
      · rw [if_neg hm] at h
        cases h
    | jNull => cases h
    | jBool b => cases h
    | jNum n => cases h
    | jArr xs => cases h
    | jObj fs => cases h

/-- The seedance pricing table is positive on every schema-valid
resolution and duration. -/
theorem seedanceCost_pos_mem (p : SeedanceParams)
    (hres : p.resolution ∈ ["480p", "720p"])
    (hdur : p.duration ∈ ["4", "8", "12"]) : 0 < seedanceCost p := by
  obtain ⟨a, r, d, f, au⟩ := p
  simp only at hres hdur
  fin_cases hres <;> fin_cases hdur <;> cases au <;>
    (unfold seedanceCost; dsimp only; decide)

/-- The wan pricing table is positive on every schema-valid resolution
and duration. -/
theorem wanCost_pos_mem (p : WanParams)
    (hres : p.resolution ∈ ["720p", "1080p"])
    (hdur : p.duration ∈ ["5", "10", "15"]) : 0 < wanCost p := by
  obtain ⟨d, r, ms⟩ := p
  simp only at hres hdur
  fin_cases hres <;> fin_cases hdur <;> (unfold wanCost; dsimp only; decide)

/-- The sora pricing table is positive on every schema-valid size and
frame count. -/
theorem soraCost_pos_mem (p : SoraParams)
    (hsize : p.size ∈ ["standard", "high"])
    (hnf : p.nFrames ∈ ["10", "15"]) : 0 < soraCost p := by
  obtain ⟨a, nf, sz, rw0, cl⟩ := p
  simp only at hsize hnf
  fin_cases hsize <;> fin_cases hnf <;> (unfold soraCost; dsimp only; decide)

/-- A schema-accepted seedance parameter record prices positive. -/
theorem seedanceParse_cost_pos (ps : List (String × Json)) (p : SeedanceParams)
    (h : seedanceParse ps = .ok p) : 0 < seedanceCost p := by
  unfold seedanceParse at h
  obtain ⟨v1, h1, h⟩ := except_bind_ok h
  obtain ⟨v2, h2, h⟩ := except_bind_ok h
  obtain ⟨v3, h3, h⟩ := except_bind_ok h
  obtain ⟨v4, h4, h⟩ := except_bind_ok h
  obtain ⟨v5, h5, h⟩ := except_bind_ok h
  simp only [pure, Except.pure, Except.ok.injEq] at h
  subst h
  exact seedanceCost_pos_mem _
    (parseEnumField_ok_mem _ _ _ _ _ (by decide) h2)
    (parseEnumField_ok_mem _ _ _ _ _ (by decide) h3)

/-- A schema-accepted wan (text/image-to-video) record prices positive. -/
theorem wanParse_cost_pos (ps : List (String × Json)) (p : WanParams)
    (h : wanParse ps = .ok p) : 0 < wanCost p := by
  unfold wanParse at h
  obtain ⟨v1, h1, h⟩ := except_bind_ok h
  obtain ⟨v2, h2, h⟩ := except_bind_ok h
  obtain ⟨v3, h3, h⟩ := except_bind_ok h
  simp only [pure, Except.pure, Except.ok.injEq] at h
  subst h
  exact wanCost_pos_mem _
    (parseEnumField_ok_mem _ _ _ _ _ (by decide) h2)
    (parseEnumField_ok_mem _ _ _ _ _ (by decide) h1)

/-- A schema-accepted wan video-to-video record prices positive. -/
theorem wanV2vParse_cost_pos (ps : List (String × Json)) (p : WanParams)
    (h : wanV2vParse ps = .ok p) : 0 < wanCost p := by
  unfold wanV2vParse at h
  obtain ⟨v1, h1, h⟩ := except_bind_ok h
  obtain ⟨v2, h2, h⟩ := except_bind_ok h
  obtain ⟨v3, h3, h⟩ := except_bind_ok h
  simp only [pure, Except.pure, Except.ok.injEq] at h
  subst h
  have hd1 : v1 ∈ ["5", "10"] := parseEnumField_ok_mem _ _ _ _ _ (by decide) h1
  have hd : v1 ∈ ["5", "10", "15"] := by fin_cases hd1 <;> decide
  exact wanCost_pos_mem _
    (parseEnumField_ok_mem _ _ _ _ _ (by decide) h2) hd

/-- A schema-accepted sora record prices positive. -/
theorem soraParse_cost_pos (ps : List (String × Json)) (p : SoraParams)
    (h : soraParse ps = .ok p) : 0 < soraCost p := by
  unfold soraParse at h
  obtain ⟨v1, h1, h⟩ := except_bind_ok h
  obtain ⟨v2, h2, h⟩ := except_bind_ok h
  obtain ⟨v3, h3, h⟩ := except_bind_ok h
  obtain ⟨v4, h4, h⟩ := except_bind_ok h
  obtain ⟨v5, h5, h⟩ := except_bind_ok h
  simp only [pure, Except.pure, Except.ok.injEq] at h
  subst h
  exact soraCost_pos_mem _
    (parseEnumField_ok_mem _ _ _ _ _ (by decide) h3)
    (parseEnumField_ok_mem _ _ _ _ _ (by decide) h2)

/-- The nano-banana-pro cost is positive on any record. -/
theorem nanoBananaProCost_pos (p : NanoBananaProParams) : 0 < nanoBananaProCost p := by
  unfold nanoBananaProCost
  split <;> decide

/-- C10: for every model of the catalog and every raw parameter value its
schema accepts, the computed cost is strictly positive — the pricing
tables cover all schema-valid options, so the 0 "unpriceable" fallback is
unreachable for accepted parameters. -/
theorem C10_accepted_params_price_positive (mid : String) (m : ModelDef)
    (r : List (String × Json)) (p : ParsedParams)
    (hm : getModel mid = some m) (hp : m.parseParams r = .ok p) :
    0 < m.computeCost p := by
  have hmem : m ∈ models := List.mem_of_find?_eq_some hm
  simp only [models, List.mem_cons, List.not_mem_nil, or_false] at hmem
  rcases hmem with rfl | rfl | rfl | rfl | rfl | rfl | rfl | rfl
  · obtain ⟨q, hq, rfl⟩ := except_map_ok hp
    exact nanoBananaProCost_pos q
  · obtain ⟨q, hq, rfl⟩ := except_map_ok hp
    exact (by decide : (0 : Int) < 7)
  · obtain ⟨q, hq, rfl⟩ := except_map_ok hp
    exact seedanceParse_cost_pos r q hq
  · obtain ⟨q, hq, rfl⟩ := except_map_ok hp
    exact wanParse_cost_pos r q hq
  · obtain ⟨q, hq, rfl⟩ := except_map_ok hp
    exact wanParse_cost_pos r q hq
  · obtain ⟨q, hq, rfl⟩ := except_map_ok hp
    exact wanV2vParse_cost_pos r q hq
  · obtain ⟨q, hq, rfl⟩ := except_map_ok hp
    exact soraParse_cost_pos r q hq
  · obtain ⟨q, hq, rfl⟩ := except_map_ok hp
    exact soraParse_cost_pos r q hq

/-- C10 witness: the all-defaults parse of seedance prices 10, and a
720p/12s/audio seedance configuration prices 50. -/
theorem C10_witness :
    0 < seedance.computeCost (.pSeedance
      { aspect := "16:9", resolution := "480p", duration := "4",
        fixedLens := false, audioOn := false }) ∧
    0 < soraT2v.computeCost (.pSora
      { aspect := "portrait", nFrames := "15", size := "high",
        removeWatermark := false, characterIdList := [] }) := by
  constructor
  · exact C10_accepted_params_price_positive "bytedance/seedance-1.5-pro" seedance [] _
      rfl rfl
  · exact C10_accepted_params_price_positive "sora-2-pro-text-to-video" soraT2v
      [("n_frames", .jStr "15"), ("size", .jStr "high")] _ rfl rfl

/-! ## Claim C1 -/

/-- Updating the balance fields of an account does not change which
accounts an id-keyed search matches. -/
theorem acc_update_pres_id (key : Nat) (uid : Nat) (c f : Int) (b : Account) :
    (fun b : Account => decide (b.id = key))
      (if b.id = uid then { b with balance := b.balance + c, promoGen := b.promoGen + f } else b) =
    (fun b : Account => decide (b.id = key)) b := by
  by_cases hb : b.id = uid <;> simp [hb]

/-- Debiting the balance fields of an account does not change which
accounts a search by a balance-independent predicate matches. -/
theorem acc_debit_pres (p : Account → Bool) (uid : Nat) (c f : Int)
    (hp : ∀ x y : Account, x.id = y.id → x.telegramId = y.telegramId → p x = p y) (b : Account) :
    p (if b.id = uid then { b with balance := b.balance - c, promoGen := b.promoGen - f } else b)
      = p b := by
  by_cases hb : b.id = uid
  · rw [if_pos hb]
    exact hp _ b rfl rfl
  · rw [if_neg hb]

/-- Marking a job failed does not change its id. -/
theorem job_mark_pres_id (nid : Nat) (errD : Option Json) (j : Job) :
    ((if j.id = nid then { j with status := JobStatus.failed, errorDetail := errD, finishedAt := true } else j) : Job).id = j.id := by
  by_cases hj : j.id = nid <;> simp [hj]

/-- Settling a freshly debited job as failed: marking it `failed` and
refunding restores the debited account, records exactly one refund
transaction, and returns the restored balances. -/
theorem refund_after_mark (stDeb : LedgerState) (nid : Nat) (a : Account) (errD : Option Json)
    (accounts0 : List Account) (jobs0 : List Job) (txs0 : List Transaction)
    (charge free : Int) (newJob : Job)
    (haccs : stDeb.accounts = accounts0.map (fun b =>
      if b.id = a.id then
        { b with balance := b.balance - charge, promoGen := b.promoGen - free }
      else b))
    (hjobs : stDeb.jobs = jobs0 ++ [newJob])
    (htxs : stDeb.txs = txs0 ++
      [{ userId := a.id, jobId := some nid, amount := -charge, txType := .debit }])
    (hnidJ : newJob.id = nid) (hnidU : newJob.userId = a.id)
    (hnidC : newJob.cost = charge) (hnidF : newJob.promoGenUsed = free)
    (hfreshJ : ∀ j ∈ jobs0, j.id ≠ nid)
    (hfreshT : ∀ t ∈ txs0, t.jobId ≠ some nid)
    (hdids : accounts0.Pairwise (fun x y => x.id ≠ y.id))
    (hamem : a ∈ accounts0) :
    ∃ r st', refund_job (markJobFailed stDeb nid errD) nid = .ok (r, st') ∧
      r.balance = a.balance - charge + charge ∧
      r.promoGen = a.promoGen - free + free ∧
      st'.accounts.find? (fun b => decide (b.id = a.id)) =
        some { a with balance := a.balance - charge + charge,
                      promoGen := a.promoGen - free + free } ∧
      st'.jobs.find? (fun x => decide (x.id = nid)) =
        some { newJob with status := .failed, errorDetail := errD, finishedAt := true } ∧
      refundCount st' nid = 1 := by
  have hdebpres : ∀ b : Account,
      (fun b : Account => decide (b.id = a.id))
        ((if b.id = a.id then { b with balance := b.balance - charge, promoGen := b.promoGen - free } else b) : Account) =
      (fun b : Account => decide (b.id = a.id)) b := by
    intro b
    by_cases hb : b.id = a.id <;> simp [hb]
  have hjobsmark : (markJobFailed stDeb nid errD).jobs =
      jobs0.map (fun j => if j.id = nid then { j with status := JobStatus.failed, errorDetail := errD, finishedAt := true } else j) ++
      [{ newJob with status := JobStatus.failed, errorDetail := errD, finishedAt := true }] := by
    unfold markJobFailed
    dsimp only
    rw [hjobs, List.map_append]
    simp [hnidJ]
  have hjf : (markJobFailed stDeb nid errD).jobs.find? (fun x => decide (x.id = nid)) =
      some { newJob with status := JobStatus.failed, errorDetail := errD, finishedAt := true } := by
    rw [hjobsmark]
    rw [find?_append_of_none]
    · simp [List.find?, hnidJ]
    · rw [List.find?_eq_none]
      intro x hx
      obtain ⟨y, hy, hyeq⟩ := List.mem_map.mp hx
      subst hyeq
      simp [job_mark_pres_id nid errD y, hfreshJ y hy]
  have hacc1 : (markJobFailed stDeb nid errD).accounts = stDeb.accounts := rfl
  have haf : (markJobFailed stDeb nid errD).accounts.find?
      (fun b => decide (b.id = ({ newJob with status := JobStatus.failed, errorDetail := errD, finishedAt := true } : Job).userId)) =
      some { a with balance := a.balance - charge, promoGen := a.promoGen - free } := by
    rw [hacc1, haccs]
    have huid : ({ newJob with status := JobStatus.failed, errorDetail := errD, finishedAt := true } : Job).userId = a.id := hnidU
    rw [huid]
    rw [find?_map_pres _ _ hdebpres, find?_by_id_of_mem accounts0 a hdids hamem]
    simp
  have hrt : hasRefundTx (markJobFailed stDeb nid errD) nid = false := by
    unfold hasRefundTx
    have htx1 : (markJobFailed stDeb nid errD).txs = stDeb.txs := rfl
    rw [htx1, htxs]
    rw [List.any_eq_false]
    intro t ht
    rcases List.mem_append.mp ht with ht | ht
    · simp [hfreshT t ht]
    · rcases List.mem_singleton.mp ht with rfl
      simp
  have hrefund := refund_ok_fresh (markJobFailed stDeb nid errD) nid
    { newJob with status := JobStatus.failed, errorDetail := errD, finishedAt := true }
    { a with balance := a.balance - charge, promoGen := a.promoGen - free }
    hjf rfl hrt haf
  refine ⟨_, _, hrefund, ?_, ?_, ?_, ?_, ?_⟩
  · dsimp only
    rw [hnidC]
  · dsimp only
    rw [hnidF]
  · dsimp only
    rw [hacc1, haccs]
    rw [find?_map_pres _ _ (acc_update_pres_id a.id _ _ _)]
    rw [find?_map_pres _ _ hdebpres, find?_by_id_of_mem accounts0 a hdids hamem]
    simp [hnidU, hnidC, hnidF]
  · dsimp only
    exact hjf
  · unfold refundCount
    dsimp only
    have htxmark : (markJobFailed stDeb nid errD).txs = stDeb.txs := rfl
    rw [htxmark, htxs, List.filter_append, List.filter_append]
    have h0 : txs0.filter (fun t => decide (t.jobId = some nid ∧ t.txType = TxType.refund)) = [] := by
      rw [List.filter_eq_nil_iff]
      intro t ht
      simp [hfreshT t ht]
    rw [h0]
    simp

/-- C1: when a request passes admission, the debit succeeds, staging
succeeds and the executor reports failure, the handler marks the job
`failed` with the executor's error detail and `finished_at`, refunds it,
and the refund restores the account's cash balance and promo credits to
their exact pre-debit values; the reply carries the post-refund balances
and exactly one refund transaction exists for the job. -/
theorem C1_settle_failure_restores_balances (st : LedgerState) (tid : Int) (body : GenBody)
    (sign : String → Option String) (fo : FetchOutcome) (m : ModelDef) (pp : ParsedParams)
    (a : Account) (urls : List (String × String))
    (hm : getModel body.model = some m)
    (hp : m.parseParams body.params = .ok pp)
    (hv : validateInputCount m body.inputs = .ok)
    (hc : 0 < m.computeCost pp)
    (hcnt : 0 < effectiveCounter m body.counter)
    (ha : st.accounts.find? (fun b => decide (b.telegramId = tid)) = some a)
    (hb : chargeCost a.promoGen (m.computeCost pp) (effectiveCounter m body.counter) ≤ a.balance)
    (hstage : stageInputs sign body.inputs = some urls)
    (hfail : jget (callN8nWebhook fo) "ok" = some (.jBool false))
    (hfreshJ : ∀ j ∈ st.jobs, j.id ≠ st.nextJobId)
    (hfreshT : ∀ t ∈ st.txs, t.jobId ≠ some st.nextJobId)
    (hdids : st.accounts.Pairwise (fun x y => x.id ≠ y.id)) :
    (generate st tid body sign fo).1 =
      .genFailed st.nextJobId (jget (callN8nWebhook fo) "error")
        { balance := a.balance, promoGen := some a.promoGen } ∧
    (generate st tid body sign fo).2.accounts.find? (fun b => decide (b.id = a.id)) =
      some a ∧
    (∃ j, (generate st tid body sign fo).2.jobs.find?
        (fun x => decide (x.id = st.nextJobId)) = some j ∧
      j.status = .failed ∧ j.errorDetail = jget (callN8nWebhook fo) "error" ∧
      j.finishedAt = true ∧
      j.cost = chargeCost a.promoGen (m.computeCost pp) (effectiveCounter m body.counter)) ∧
    refundCount (generate st tid body sign fo).2 st.nextJobId = 1 := by
  have hamem : a ∈ st.accounts := List.mem_of_find?_eq_some ha
  have hdeb := debit_ok st tid body.model (jobTypeStr m.jobType) body.prompt pp.toJson
    body.inputs (m.computeCost pp) (effectiveCounter m body.counter) a ha hc hcnt hb
  have hcostguard : ¬(m.computeCost pp ≤ 0 ∨
      m.computeCost pp * effectiveCounter m body.counter ≤ 0) :=
    not_or.mpr ⟨not_le.mpr hc, not_le.mpr (mul_pos hc hcnt)⟩
  obtain ⟨r, st', hrefund, hrb, hrp, hfacc, hfjob, hcount⟩ :=
    refund_after_mark
      { accounts := st.accounts.map (fun b =>
          if b.id = a.id then
            { b with balance := b.balance - chargeCost a.promoGen (m.computeCost pp) (effectiveCounter m body.counter), promoGen := b.promoGen - freeUnitsUsed a.promoGen (effectiveCounter m body.counter) }
          else b),
        jobs := st.jobs ++
          [{ id := st.nextJobId, userId := a.id, model := body.model, jobType := jobTypeStr m.jobType, prompt := body.prompt, params := pp.toJson, inputs := body.inputs, status := .processing, cost := chargeCost a.promoGen (m.computeCost pp) (effectiveCounter m body.counter), promoGenUsed := freeUnitsUsed a.promoGen (effectiveCounter m body.counter), outputUrl := none, errorDetail := none, finishedAt := false }],
        txs := st.txs ++
          [{ userId := a.id, jobId := some st.nextJobId, amount := -chargeCost a.promoGen (m.computeCost pp) (effectiveCounter m body.counter), txType := .debit }],
        nextJobId := st.nextJobId + 1 }
      st.nextJobId a (jget (callN8nWebhook fo) "error")
      st.accounts st.jobs st.txs
      (chargeCost a.promoGen (m.computeCost pp) (effectiveCounter m body.counter))
      (freeUnitsUsed a.promoGen (effectiveCounter m body.counter))
      { id := st.nextJobId, userId := a.id, model := body.model, jobType := jobTypeStr m.jobType, prompt := body.prompt, params := pp.toJson, inputs := body.inputs, status := .processing, cost := chargeCost a.promoGen (m.computeCost pp) (effectiveCounter m body.counter), promoGenUsed := freeUnitsUsed a.promoGen (effectiveCounter m body.counter), outputUrl := none, errorDetail := none, finishedAt := false }
      rfl rfl rfl rfl rfl rfl rfl hfreshJ hfreshT hdids hamem
  unfold generate
  rw [hm]
  dsimp only
  rw [hp]
  dsimp only
  rw [hv]
  dsimp only
  rw [if_neg hcostguard, hdeb]
  dsimp only
  rw [hstage]
  dsimp only
  rw [hfail]
  dsimp only
  rw [hrefund]
  dsimp only
  have e1 : a.balance -
      chargeCost a.promoGen (m.computeCost pp) (effectiveCounter m body.counter) +
      chargeCost a.promoGen (m.computeCost pp) (effectiveCounter m body.counter) =
      a.balance := by omega
  have e2 : a.promoGen - freeUnitsUsed a.promoGen (effectiveCounter m body.counter) +
      freeUnitsUsed a.promoGen (effectiveCounter m body.counter) = a.promoGen := by omega
  refine ⟨?_, ?_, ⟨_, hfjob, rfl, rfl, rfl, rfl⟩, hcount⟩
  · rw [hrb, hrp, e1, e2]
  · rw [hfacc, e1, e2]

/-- C1 witness: the spec scenario — balance 100, a job charged at cost 7
(nano-banana, counter 1), executor failure — ends with balance restored
to 100 and one refund transaction; the reply carries the post-refund
balances. -/
theorem C1_witness :
    ((generate
        { accounts := [{ id := 1, telegramId := 7, balance := 100, promoGen := 0 }], jobs := [], txs := [], nextJobId := 0 }
        7
        { model := "google/nano-banana", prompt := "p", params := [], inputs := [], style := none, counter := none, promptAi := false }
        (fun _ => none)
        (.httpResp true 200 (.jsonVal (.jObj [("ok", .jBool false), ("error", .jObj [("code", .jStr "boom"), ("message", .jStr "fail")])])))).1 =
      .genFailed 0 (some (.jObj [("code", .jStr "boom"), ("message", .jStr "fail")]))
        { balance := 100, promoGen := some 0 }) ∧
    ((generate
        { accounts := [{ id := 1, telegramId := 7, balance := 100, promoGen := 0 }], jobs := [], txs := [], nextJobId := 0 }
        7
        { model := "google/nano-banana", prompt := "p", params := [], inputs := [], style := none, counter := none, promptAi := false }
        (fun _ => none)
        (.httpResp true 200 (.jsonVal (.jObj [("ok", .jBool false), ("error", .jObj [("code", .jStr "boom"), ("message", .jStr "fail")])])))).2.accounts.find?
        (fun b => decide (b.id = 1)) =
      some { id := 1, telegramId := 7, balance := 100, promoGen := 0 }) ∧
    refundCount
      (generate
        { accounts := [{ id := 1, telegramId := 7, balance := 100, promoGen := 0 }], jobs := [], txs := [], nextJobId := 0 }
        7
        { model := "google/nano-banana", prompt := "p", params := [], inputs := [], style := none, counter := none, promptAi := false }
        (fun _ => none)
        (.httpResp true 200 (.jsonVal (.jObj [("ok", .jBool false), ("error", .jObj [("code", .jStr "boom"), ("message", .jStr "fail")])])))).2
      0 = 1 := by
  obtain ⟨h1, h2, -, h4⟩ := C1_settle_failure_restores_balances
    { accounts := [{ id := 1, telegramId := 7, balance := 100, promoGen := 0 }], jobs := [], txs := [], nextJobId := 0 }
    7
    { model := "google/nano-banana", prompt := "p", params := [], inputs := [], style := none, counter := none, promptAi := false }
    (fun _ => none)
    (.httpResp true 200 (.jsonVal (.jObj [("ok", .jBool false), ("error", .jObj [("code", .jStr "boom"), ("message", .jStr "fail")])])))
    nanoBanana (.pNanoBanana { outputFormat := "png", imageSize := "1:1" })
    { id := 1, telegramId := 7, balance := 100, promoGen := 0 } []
    rfl rfl rfl (by decide) (by decide) rfl (by decide) rfl rfl
    (by decide) (by decide) (by decide)
  exact ⟨h1, h2, h4⟩
